import Mathlib

/-!
Verification of the tissglosa reconciliation core against its specification.

The Python source (pandas/Decimal based) is shallowly embedded:
* DataFrames become `List` of structures; a missing numeric cell (`NaN`)
  becomes `none : Option ℚ`; currency values (`Decimal` at parse time,
  `float64` afterwards) become `ℚ`.
* A pandas float division that can yield `inf`/`NaN` is modelled as an
  `Option ℚ` which is `none` exactly when the result is not a finite number.
* Python functions that can raise become `Except Unit`.
-/

namespace Tiss

/-- Characters treated as whitespace by Python `str.strip()`. -/
def pyIsSpace (c : Char) : Bool :=
  c = ' ' || c = '\t' || c = '\n' || c = '\r' || c = '\x0b' || c = '\x0c'

/-- Drop whitespace from the back of a character list (Python `rstrip`). -/
def rstripChars (l : List Char) : List Char :=
  ((l.reverse).dropWhile pyIsSpace).reverse

/-- Python `str.strip()`: drop whitespace from both ends. -/
def stripChars (l : List Char) : List Char :=
  rstripChars (l.dropWhile pyIsSpace)

/-- Python `str.strip()` on a `String`. -/
def pyStrip (s : String) : String := (stripChars s.toList).asString

/-- The character class removed by `normalize_code`:
`re.sub(r'[\.\-_/ \t]', '', s)` in `core/utils.py`. -/
def normRemoved (c : Char) : Bool :=
  c = '.' || c = '-' || c = '_' || c = '/' || c = ' ' || c = '\t'

/-- Character-list core of `normalize_code` (`core/utils.py`):
remove separator characters, strip surrounding whitespace, optionally
strip leading zeros. -/
def normChars (l : List Char) (strip_zeros : Bool) : List Char :=
  let s2 := stripChars (l.filter (fun c => !normRemoved c))
  if strip_zeros then s2.dropWhile (· = '0') else s2

/-- Function `normalize_code` from `core/utils.py`. -/
def normalize_code (s : String) (strip_zeros : Bool) : String :=
  (normChars s.toList strip_zeros).asString

/-- The function `List.dropWhile` is idempotent. -/
theorem dropWhile_dropWhile (p : α → Bool) (l : List α) :
    (l.dropWhile p).dropWhile p = l.dropWhile p := by
  induction l with
  | nil => rfl
  | cons a t ih =>
    by_cases h : p a
    · simp [List.dropWhile_cons, h, ih]
    · simp [List.dropWhile_cons, h]

/-- If `dropWhile p` fixes a list, it also fixes its `rstrip`-style trim. -/
theorem dropWhile_rstrip_fix (p : α → Bool) (m : List α)
    (h : m.dropWhile p = m) :
    (((m.reverse).dropWhile p).reverse).dropWhile p
      = ((m.reverse).dropWhile p).reverse := by
  cases m with
  | nil => rfl
  | cons a t =>
    have ha : p a = false := by
      by_contra hcon
      have hpa : p a = true := by
        cases hv : p a
        · exact absurd hv hcon
        · rfl
      have hlen := congrArg List.length h
      rw [List.dropWhile_cons, hpa] at hlen
      simp at hlen
      have := List.length_filter_le (fun _ => true) t
      have hle : (t.dropWhile p).length ≤ t.length := by
        simpa using (List.dropWhile_sublist (l := t) p).length_le
      omega
    rw [List.reverse_cons, List.dropWhile_append]
    by_cases he : ((t.reverse).dropWhile p).isEmpty
    · simp only [he, if_true]
      simp [List.dropWhile_cons, ha]
    · rw [if_neg he, List.reverse_append]
      simp [List.dropWhile_cons, ha]

/-- Stripping is idempotent. -/
theorem stripChars_idem (l : List Char) :
    stripChars (stripChars l) = stripChars l := by
  unfold stripChars rstripChars
  set m := l.dropWhile pyIsSpace with hm
  have hfix : m.dropWhile pyIsSpace = m := by
    rw [hm]; exact dropWhile_dropWhile _ _
  rw [dropWhile_rstrip_fix pyIsSpace m hfix]
  set r := ((m.reverse).dropWhile pyIsSpace).reverse with hr
  have : r.reverse.dropWhile pyIsSpace = r.reverse := by
    rw [hr, List.reverse_reverse]
    exact dropWhile_dropWhile _ _
  rw [this, hr, List.reverse_reverse]

/-- Members of a stripped list are members of the original. -/
theorem mem_stripChars {c : Char} {l : List Char} (h : c ∈ stripChars l) :
    c ∈ l := by
  unfold stripChars rstripChars at h
  have h1 := (List.dropWhile_sublist pyIsSpace).mem (by simpa using h)
  have h2 := (List.dropWhile_sublist (l := l) pyIsSpace).mem (by simpa using h1)
  exact h2

/-- Members of the normalized character list are members of the input. -/
theorem mem_normChars {c : Char} {l : List Char} {f : Bool}
    (h : c ∈ normChars l f) : c ∈ l := by
  unfold normChars at h
  by_cases hf : f
  · simp only [hf, if_true] at h
    have h1 := (List.dropWhile_sublist (· = '0')).mem h
    have h2 := mem_stripChars h1
    exact (List.mem_filter.mp h2).1
  · simp only [hf, if_false] at h
    have h2 := mem_stripChars h
    exact (List.mem_filter.mp h2).1

/-- No character of the normalized list is a removed separator. -/
theorem normChars_no_removed {c : Char} {l : List Char} {f : Bool}
    (h : c ∈ normChars l f) : normRemoved c = false := by
  unfold normChars at h
  by_cases hf : f
  · simp only [hf, if_true] at h
    have h1 := (List.dropWhile_sublist (· = '0')).mem h
    have h2 := mem_stripChars h1
    simpa using (List.mem_filter.mp h2).2
  · simp only [hf, if_false] at h
    have h2 := mem_stripChars h
    simpa using (List.mem_filter.mp h2).2

/-- If no member satisfies `p`, `dropWhile p` is the identity. -/
theorem dropWhile_eq_self_of_not (p : α → Bool) (l : List α)
    (h : ∀ a ∈ l, p a = false) : l.dropWhile p = l := by
  cases l with
  | nil => rfl
  | cons a t => simp [List.dropWhile_cons, h a (List.mem_cons_self a t)]

/-- If no member satisfies `pyIsSpace`, stripping is the identity. -/
theorem stripChars_eq_self_of_not (l : List Char)
    (h : ∀ c ∈ l, pyIsSpace c = false) : stripChars l = l := by
  unfold stripChars rstripChars
  rw [dropWhile_eq_self_of_not _ _ h,
      dropWhile_eq_self_of_not _ _ (fun c hc => h c (by simpa using hc)),
      List.reverse_reverse]

/-- Normalization with `strip_zeros = false` is idempotent. -/
theorem normChars_false_idem (l : List Char) :
    normChars (normChars l false) false = normChars l false := by
  unfold normChars
  simp only [if_false, Bool.false_eq_true]
  rw [List.filter_eq_self.mpr, stripChars_idem]
  intro c hc
  have := normChars_no_removed (l := l) (f := false) (by simpa [normChars] using hc)
  simp [this]

/-- A list is tame when its only whitespace characters are spaces and tabs
(the ones `normalize_code` removes outright). -/
def tameWS (l : List Char) : Prop :=
  ∀ c ∈ l, pyIsSpace c = true → (c = ' ' ∨ c = '\t')

instance (l : List Char) : Decidable (tameWS l) :=
  List.decidableBAll _ l

/-- After the separator filter of `normalize_code`, a tame list contains
no whitespace at all. -/
theorem filter_no_ws {l : List Char} (h : tameWS l) :
    ∀ c ∈ l.filter (fun c => !normRemoved c), pyIsSpace c = false := by
  intro c hc
  have hmem := List.mem_filter.mp hc
  by_contra hcon
  have hws : pyIsSpace c = true := by
    cases hv : pyIsSpace c
    · exact absurd hv hcon
    · rfl
  rcases h c hmem.1 hws with h1 | h1 <;>
    · subst h1; simp [normRemoved] at hmem

/-- Normalization with `strip_zeros = true` is idempotent on tame input. -/
theorem normChars_true_idem (l : List Char) (h : tameWS l) :
    normChars (normChars l true) true = normChars l true := by
  have hfil : ∀ c ∈ l.filter (fun c => !normRemoved c), pyIsSpace c = false :=
    filter_no_ws h
  unfold normChars
  simp only [if_true]
  rw [stripChars_eq_self_of_not _ hfil]
  set m := (l.filter (fun c => !normRemoved c)).dropWhile (· = '0') with hm
  have hmem : ∀ c ∈ m, c ∈ l.filter (fun c => !normRemoved c) := by
    intro c hc
    exact (List.dropWhile_sublist (· = '0')).mem (hm ▸ hc)
  rw [List.filter_eq_self.mpr, stripChars_eq_self_of_not, dropWhile_dropWhile]
  · intro c hc
    exact hfil c (hmem c hc)
  · intro c hc
    exact (List.mem_filter.mp (hmem c hc)).2

/-- C8 (amended): `normalize_code` is deterministic (a pure function) and
idempotent whenever `strip_zeros` is false; with `strip_zeros = true` it is
idempotent on every code whose whitespace is limited to spaces and tabs. -/
theorem normalize_code_idem :
    (∀ c : String, normalize_code (normalize_code c false) false
        = normalize_code c false)
    ∧ (∀ c : String, tameWS c.toList →
        normalize_code (normalize_code c true) true = normalize_code c true) := by
  constructor
  · intro c
    unfold normalize_code
    have : (List.asString (normChars c.toList false)).toList
        = normChars c.toList false := rfl
    rw [this, normChars_false_idem]
  · intro c h
    unfold normalize_code
    have he : (List.asString (normChars c.toList true)).toList
        = normChars c.toList true := rfl
    rw [he, normChars_true_idem _ h]

/-- C8 counterexample: with `strip_zeros = true`, stripping leading zeros can
expose a leading newline that a second pass then strips, so `normalize_code`
is not idempotent on the code `"0\n0"`. -/
theorem normalize_code_not_idem :
    normalize_code (normalize_code "0\n0" true) true
      ≠ normalize_code "0\n0" true := by decide

/-- Witness for `normalize_code_idem` at the concrete code `"08.50-10"`. -/
theorem normalize_code_idem_witness :
    normalize_code (normalize_code "08.50-10" true) true
      = normalize_code "08.50-10" true :=
  normalize_code_idem.2 "08.50-10" (by decide)

/-- Numeric value of a digit list (base 10, most significant first). -/
def digitsToNat (l : List Char) : Nat :=
  l.foldl (fun a c => a * 10 + (c.toNat - 48)) 0

/-- Parse the unsigned mantissa of a decimal literal: digits with at most one
decimal point and at least one digit overall. -/
def parseMantissa (l : List Char) : Option ℚ :=
  match l.splitOn '.' with
  | [ip] =>
      if ip ≠ [] ∧ ip.all Char.isDigit then some (digitsToNat ip : ℚ) else none
  | [ip, fp] =>
      if (ip ++ fp) ≠ [] ∧ ip.all Char.isDigit ∧ fp.all Char.isDigit then
        some ((digitsToNat ip : ℚ) + (digitsToNat fp : ℚ) / (10 : ℚ) ^ fp.length)
      else none
  | _ => none

/-- Parse a signed exponent: optional sign followed by digits. -/
def parseExpPart (l : List Char) : Option ℤ :=
  let ls := match l with
    | '+' :: r => (false, r)
    | '-' :: r => (true, r)
    | r => (false, r)
  if ls.2 ≠ [] ∧ ls.2.all Char.isDigit then
    some (if ls.1 then -(digitsToNat ls.2 : ℤ) else (digitsToNat ls.2 : ℤ))
  else none

/-- Parse a decimal numeric literal (sign, digits, optional fraction,
optional exponent), the grammar shared by Python `Decimal(str)` and
`pd.to_numeric` for finite values.  Returns `none` on malformed input. -/
def parseDecimalString (s : String) : Option ℚ :=
  let l0 := s.toList.map Char.toLower
  let sl := match l0 with
    | '+' :: r => (false, r)
    | '-' :: r => (true, r)
    | r => (false, r)
  match sl.2.splitOn 'e' with
  | [m] => (parseMantissa m).map fun q => if sl.1 then -q else q
  | [m, e] => do
      let qm ← parseMantissa m
      let ex ← parseExpPart e
      let q := qm * (10 : ℚ) ^ ex
      pure (if sl.1 then -q else q)
  | _ => none

/-- Replace every comma by a dot (`str.replace(',', '.')`). -/
def commaToDot (s : String) : String :=
  (s.toList.map (fun c => if c = ',' then '.' else c)).asString

/-- Function `dec` from `core/utils.py`: `None` and empty/whitespace strings yield
`Decimal('0')`; otherwise the stripped, comma-to-dot text is handed to the
`Decimal` constructor, which raises (`Except.error`) on malformed input. -/
def dec (txt : Option String) : Except Unit ℚ :=
  match txt with
  | none => Except.ok 0
  | some t =>
      let s := commaToDot (pyStrip t)
      if s = "" then Except.ok 0
      else
        match parseDecimalString s with
        | some q => Except.ok q
        | none => Except.error ()

/-- One cell of `pd.to_numeric(col, errors='coerce')` on string input:
`none` models `NaN` for unparseable text. -/
def toNumericCell (s : String) : Option ℚ :=
  parseDecimalString (pyStrip s)

/-- One cell of the numeric coercion in `build_xml_df`
(`pd.to_numeric(df[c], errors='coerce').fillna(0.0)`). -/
def buildXmlNumericCell (s : String) : ℚ :=
  (toNumericCell s).getD 0

/-- C5 (amended): the `pd.to_numeric(..., errors='coerce').fillna(0.0)` path
of `build_xml_df` coerces every unparseable cell to `0` and never raises,
and `dec` returns `0` for `None` and for empty or all-whitespace strings and
propagates parsed values; but `dec` raises (rather than coercing to zero) on
non-empty unparseable text, the exception being caught per file in
`build_xml_df`. -/
theorem numeric_coercion_behavior :
    (dec none = Except.ok 0)
    ∧ (∀ s : String, stripChars s.toList = [] → dec (some s) = Except.ok 0)
    ∧ (∀ s : String, ∀ q : ℚ,
        parseDecimalString (commaToDot (pyStrip s)) = some q →
        dec (some s) = Except.ok q)
    ∧ (∀ s : String, toNumericCell s = none → buildXmlNumericCell s = 0)
    ∧ (buildXmlNumericCell "abc" = 0) := by
  refine ⟨rfl, ?_, ?_, ?_, by decide⟩
  · intro s h
    have hs : pyStrip s = "" := by
      unfold pyStrip
      rw [h]; rfl
    have hc : commaToDot "" = "" := rfl
    simp [dec, hs, hc]
  · intro s q h
    unfold dec
    by_cases he : commaToDot (pyStrip s) = ""
    · rw [he] at h
      simp [parseDecimalString, parseMantissa, List.splitOn] at h
    · simp only [he, if_false, h]
  · intro s h
    unfold buildXmlNumericCell
    rw [h]; rfl

/-- C5 counterexample: `dec` does not coerce arbitrary text to zero; on the
non-numeric string `"abc"` it raises (`InvalidOperation` in the source,
`Except.error` in the model) instead of returning a value. -/
theorem dec_raises_on_text :
    dec (some "abc") = Except.error ()
      ∧ ∀ q : ℚ, dec (some "abc") ≠ Except.ok q := by
  constructor
  · rfl
  · intro q h
    rw [show dec (some "abc") = Except.error () from rfl] at h
    exact Except.noConfusion h

/-- Witness for `numeric_coercion_behavior`: the whitespace string `"  "`
is coerced to zero by `dec`. -/
theorem numeric_coercion_behavior_witness :
    dec (some "  ") = Except.ok 0 :=
  numeric_coercion_behavior.2.1 "  " (by decide)

/-- An XML element: tag (namespace prefixes dropped), optional text,
children in document order — the fragment of `xml.etree.ElementTree`
that `core/xml_parser.py` uses. -/
inductive XmlEl where
  | mk (tag : String) (text : Option String) (children : List XmlEl)

/-- Element tag. -/
def XmlEl.tag : XmlEl → String
  | .mk t _ _ => t

/-- Element text. -/
def XmlEl.text : XmlEl → Option String
  | .mk _ s _ => s

/-- Element children. -/
def XmlEl.children : XmlEl → List XmlEl
  | .mk _ _ cs => cs

mutual
/-- All strict descendants of an element, in document order
(the node set searched by an ElementTree `.//` path). -/
def XmlEl.descendants : XmlEl → List XmlEl
  | .mk _ _ cs => XmlEl.descendantsList cs

/-- Descendants-or-self of every element of a list, in document order. -/
def XmlEl.descendantsList : List XmlEl → List XmlEl
  | [] => []
  | c :: cs => c :: (XmlEl.descendants c ++ XmlEl.descendantsList cs)
end

/-- ElementTree `el.find(tag)`: first child with the given tag. -/
def findChild (e : XmlEl) (t : String) : Option XmlEl :=
  e.children.find? (fun c => c.tag == t)

/-- All elements reached from `e` by a chain of child steps. -/
def collectPath : XmlEl → List String → List XmlEl
  | e, [] => [e]
  | e, t :: ts =>
      (e.children.filter (fun c => c.tag == t)).flatMap (fun c => collectPath c ts)

/-- ElementTree `el.findall` on a descendant path `.//t1/t2`, anchored at any descendant. -/
def findallDesc (e : XmlEl) (path : List String) : List XmlEl :=
  match path with
  | [] => []
  | t :: ts =>
      ((XmlEl.descendants e).filter (fun d => d.tag == t)).flatMap
        (fun d => collectPath d ts)

/-- ElementTree `el.find` on a descendant path: first match. -/
def findDesc (e : XmlEl) (path : List String) : Option XmlEl :=
  (findallDesc e path).head?

/-- Function `tx` from `core/utils.py`: stripped element text, empty for a missing
element or missing/empty text. -/
def tx (el : Option XmlEl) : String :=
  match el with
  | some e =>
      match e.text with
      | some t => if t = "" then "" else pyStrip t
      | none => ""
  | none => ""

/-- Function `_get_numero_lote` from `core/xml_parser.py`: batch number from the
regular submission path, falling back to the appeal path, else empty. -/
def _get_numero_lote (root : XmlEl) : String :=
  let el1 := findDesc root ["prestadorParaOperadora", "loteGuias", "numeroLote"]
  if tx el1 ≠ "" then tx el1
  else
    let el2 := findDesc root
      ["prestadorParaOperadora", "recursoGlosa", "guiaRecursoGlosa", "numeroLote"]
    if tx el2 ≠ "" then tx el2 else ""

/-- One parsed line item (the record dict built by `parse_itens_tiss_xml`);
guide-level fields are filled by the per-guide `update`. -/
structure Item where
  arquivo : String := ""
  numero_lote : String := ""
  tipo_guia : String := ""
  numeroGuiaPrestador : String := ""
  numeroGuiaOperadora : String := ""
  paciente : String := ""
  medico : String := ""
  data_atendimento : String := ""
  tipo_item : String
  identificadorDespesa : String
  codigo_tabela : String
  codigo_procedimento : String
  descricao_procedimento : String
  quantidade : ℚ
  valor_unitario : ℚ
  valor_total : ℚ
deriving DecidableEq

/-- Error-propagating map: a Python `for` loop of fallible item builders. -/
def mapME (f : α → Except Unit β) : List α → Except Unit (List β)
  | [] => Except.ok []
  | x :: xs =>
      match f x with
      | Except.error e => Except.error e
      | Except.ok y =>
          match mapME f xs with
          | Except.error e => Except.error e
          | Except.ok ys => Except.ok (y :: ys)

/-- Every output of a successful `mapME` comes from some input. -/
theorem mapME_ok_mem {f : α → Except Unit β} {l : List α} {ys : List β}
    (h : mapME f l = Except.ok ys) {y : β} (hy : y ∈ ys) :
    ∃ x ∈ l, f x = Except.ok y := by
  induction l generalizing ys with
  | nil =>
    simp [mapME] at h
    subst h
    cases hy
  | cons x xs ih =>
    unfold mapME at h
    cases hfx : f x with
    | error e => rw [hfx] at h; cases h
    | ok y1 =>
      rw [hfx] at h
      cases hrest : mapME f xs with
      | error e => rw [hrest] at h; cases h
      | ok ys1 =>
        rw [hrest] at h
        injection h with h
        subst h
        rcases List.mem_cons.mp hy with h1 | h2
        · subst h1; exact ⟨x, List.mem_cons_self x xs, hfx⟩
        · obtain ⟨x2, hx2, hfx2⟩ := ih hrest h2
          exact ⟨x2, List.mem_cons_of_mem x hx2, hfx2⟩

/-- Function `_itens_consulta` from `core/xml_parser.py`: exactly one item per
consultation guide, quantity fixed at 1, value from the nested procedure. -/
def _itens_consulta (guia : XmlEl) : Except Unit (List Item) :=
  let proc := findDesc guia ["procedimento"]
  let codigo_tabela := match proc with
    | some p => tx (findChild p "codigoTabela")
    | none => ""
  let codigo_proc := match proc with
    | some p => tx (findChild p "codigoProcedimento")
    | none => ""
  let descricao := match proc with
    | some p => tx (findChild p "descricaoProcedimento")
    | none => ""
  match (match proc with
         | some p => dec (some (tx (findChild p "valorProcedimento")))
         | none => Except.ok 0) with
  | Except.error e => Except.error e
  | Except.ok valor =>
      Except.ok [{
        tipo_item := "procedimento", identificadorDespesa := "",
        codigo_tabela := codigo_tabela, codigo_procedimento := codigo_proc,
        descricao_procedimento := descricao,
        quantidade := 1, valor_unitario := valor, valor_total := valor }]

/-- Quantity read for an executed SADT procedure. -/
def execQtd (el : XmlEl) : Except Unit ℚ :=
  dec (some (tx (findChild el "quantidadeExecutada")))

/-- Unit value read for an executed SADT procedure. -/
def execVUni (el : XmlEl) : Except Unit ℚ :=
  dec (some (tx (findChild el "valorUnitario")))

/-- Total value read for an executed SADT procedure. -/
def execVTot (el : XmlEl) : Except Unit ℚ :=
  dec (some (tx (findChild el "valorTotal")))

/-- One executed-procedure item of `_itens_sadt`. -/
def sadtExecItem (el : XmlEl) : Except Unit Item :=
  let proc := findChild el "procedimento"
  let codigo_tabela := match proc with
    | some p => tx (findChild p "codigoTabela")
    | none => ""
  let codigo_proc := match proc with
    | some p => tx (findChild p "codigoProcedimento")
    | none => ""
  let descricao := match proc with
    | some p => tx (findChild p "descricaoProcedimento")
    | none => ""
  match execQtd el with
  | Except.error e => Except.error e
  | Except.ok qtd =>
  match execVUni el with
  | Except.error e => Except.error e
  | Except.ok vuni =>
  match execVTot el with
  | Except.error e => Except.error e
  | Except.ok vtot0 =>
    let vtot := if vtot0 = 0 ∧ 0 < vuni ∧ 0 < qtd then vuni * qtd else vtot0
    Except.ok {
      tipo_item := "procedimento", identificadorDespesa := "",
      codigo_tabela := codigo_tabela, codigo_procedimento := codigo_proc,
      descricao_procedimento := descricao,
      quantidade := if 0 < qtd then qtd else 1,
      valor_unitario := if 0 < vuni then vuni else vtot,
      valor_total := vtot }

/-- Quantity read for an itemized SADT ancillary expense. -/
def despQtd (desp : XmlEl) : Except Unit ℚ :=
  match findChild desp "servicosExecutados" with
  | some sv => dec (some (tx (findChild sv "quantidadeExecutada")))
  | none => Except.ok 0

/-- Unit value read for an itemized SADT ancillary expense. -/
def despVUni (desp : XmlEl) : Except Unit ℚ :=
  match findChild desp "servicosExecutados" with
  | some sv => dec (some (tx (findChild sv "valorUnitario")))
  | none => Except.ok 0

/-- Total value read for an itemized SADT ancillary expense. -/
def despVTot (desp : XmlEl) : Except Unit ℚ :=
  match findChild desp "servicosExecutados" with
  | some sv => dec (some (tx (findChild sv "valorTotal")))
  | none => Except.ok 0

/-- One ancillary-expense item of `_itens_sadt`. -/
def sadtDespItem (desp : XmlEl) : Except Unit Item :=
  let ident := tx (findChild desp "identificadorDespesa")
  let sv := findChild desp "servicosExecutados"
  let codigo_tabela := match sv with
    | some s => tx (findChild s "codigoTabela")
    | none => ""
  let codigo_proc := match sv with
    | some s => tx (findChild s "codigoProcedimento")
    | none => ""
  let descricao := match sv with
    | some s => tx (findChild s "descricaoProcedimento")
    | none => ""
  match despQtd desp with
  | Except.error e => Except.error e
  | Except.ok qtd =>
  match despVUni desp with
  | Except.error e => Except.error e
  | Except.ok vuni =>
  match despVTot desp with
  | Except.error e => Except.error e
  | Except.ok vtot0 =>
    let vtot := if vtot0 = 0 ∧ 0 < vuni ∧ 0 < qtd then vuni * qtd else vtot0
    Except.ok {
      tipo_item := "outra_despesa", identificadorDespesa := ident,
      codigo_tabela := codigo_tabela, codigo_procedimento := codigo_proc,
      descricao_procedimento := descricao,
      quantidade := if 0 < qtd then qtd else 1,
      valor_unitario := if 0 < vuni then vuni else vtot,
      valor_total := vtot }

/-- Executed-procedure elements of a SADT guide
(`.//procedimentosExecutados/procedimentoExecutado`). -/
def execList (guia : XmlEl) : List XmlEl :=
  findallDesc guia ["procedimentosExecutados", "procedimentoExecutado"]

/-- Ancillary-expense elements of a SADT guide (`.//outrasDespesas/despesa`). -/
def despList (guia : XmlEl) : List XmlEl :=
  findallDesc guia ["outrasDespesas", "despesa"]

/-- Function `_itens_sadt` from `core/xml_parser.py`. -/
def _itens_sadt (guia : XmlEl) : Except Unit (List Item) :=
  match mapME sadtExecItem (execList guia) with
  | Except.error e => Except.error e
  | Except.ok procs =>
      match mapME sadtDespItem (despList guia) with
      | Except.error e => Except.error e
      | Except.ok desps => Except.ok (procs ++ desps)

/-- Guide-level processing of one `guiaConsulta` inside
`parse_itens_tiss_xml` (the per-guide `update` of the CONSULTA loop). -/
def consultaGuiaItems (nome numero_lote : String) (guia : XmlEl) :
    Except Unit (List Item) :=
  let prest := tx (findChild guia "numeroGuiaPrestador")
  let oper0 := tx (findChild guia "numeroGuiaOperadora")
  let oper := if oper0 = "" then prest else oper0
  let paciente := tx (findDesc guia ["dadosBeneficiario", "nomeBeneficiario"])
  let medico := tx (findDesc guia ["dadosProfissionaisResponsaveis", "nomeProfissional"])
  let data_atd := tx (findDesc guia ["dataAtendimento"])
  match _itens_consulta guia with
  | Except.error e => Except.error e
  | Except.ok its => Except.ok (its.map fun it =>
      { it with
        arquivo := nome, numero_lote := numero_lote,
        tipo_guia := "CONSULTA",
        numeroGuiaPrestador := prest, numeroGuiaOperadora := oper,
        paciente := paciente, medico := medico, data_atendimento := data_atd })

/-- Guide-level processing of one `guiaSP-SADT` inside
`parse_itens_tiss_xml` (the per-guide `update` of the SADT loop). -/
def sadtGuiaItems (nome numero_lote : String) (guia : XmlEl) :
    Except Unit (List Item) :=
  let cab := findChild guia "cabecalhoGuia"
  let aut := findChild guia "dadosAutorizacao"
  let p0 := tx (findChild guia "numeroGuiaPrestador")
  let prest := if p0 = "" then
      (match cab with
       | some c => tx (findChild c "numeroGuiaPrestador")
       | none => p0)
    else p0
  let o1 := match aut with
    | some a => tx (findChild a "numeroGuiaOperadora")
    | none => ""
  let o2 := if o1 = "" then
      (match cab with
       | some c => tx (findChild c "numeroGuiaOperadora")
       | none => o1)
    else o1
  let oper := if o2 = "" then prest else o2
  let paciente := tx (findDesc guia ["dadosBeneficiario", "nomeBeneficiario"])
  let medico := tx (findDesc guia ["dadosProfissionaisResponsaveis", "nomeProfissional"])
  let data_atd := tx (findDesc guia ["dataAtendimento"])
  match _itens_sadt guia with
  | Except.error e => Except.error e
  | Except.ok its => Except.ok (its.map fun it =>
      { it with
        arquivo := nome, numero_lote := numero_lote,
        tipo_guia := "SADT",
        numeroGuiaPrestador := prest, numeroGuiaOperadora := oper,
        paciente := paciente, medico := medico, data_atendimento := data_atd })

/-- The `guiaConsulta` elements scanned by the parser. -/
def consultaGuias (root : XmlEl) : List XmlEl :=
  (XmlEl.descendants root).filter (fun e => e.tag == "guiaConsulta")

/-- The `guiaSP-SADT` elements scanned by the parser. -/
def sadtGuias (root : XmlEl) : List XmlEl :=
  (XmlEl.descendants root).filter (fun e => e.tag == "guiaSP-SADT")

/-- Function `parse_itens_tiss_xml` from `core/xml_parser.py`, over an already-parsed
document root (the stream/path handling is I/O outside the embedding). -/
def parse_itens_tiss_xml (nome : String) (root : XmlEl) :
    Except Unit (List Item) :=
  let numero_lote := _get_numero_lote root
  match mapME (consultaGuiaItems nome numero_lote) (consultaGuias root) with
  | Except.error e => Except.error e
  | Except.ok cons =>
      match mapME (sadtGuiaItems nome numero_lote) (sadtGuias root) with
      | Except.error e => Except.error e
      | Except.ok sadts => Except.ok (cons.flatten ++ sadts.flatten)

/-- A fallback of the shape `b or a` in Python is non-empty when `a` is. -/
theorem ite_ne_empty {a b : String} (ha : a ≠ "") :
    (if b = "" then a else b) ≠ "" := by
  by_cases h : b = "" <;> simp [h, ha]

/-- Every parsed item comes from processing one consultation or one SADT
guide of the document. -/
theorem parse_ok_mem {nome : String} {root : XmlEl} {items : List Item}
    {it : Item} (h : parse_itens_tiss_xml nome root = Except.ok items)
    (hm : it ∈ items) :
    (∃ guia ∈ consultaGuias root, ∃ its,
        consultaGuiaItems nome (_get_numero_lote root) guia = Except.ok its
          ∧ it ∈ its)
    ∨ (∃ guia ∈ sadtGuias root, ∃ its,
        sadtGuiaItems nome (_get_numero_lote root) guia = Except.ok its
          ∧ it ∈ its) := by
  simp only [parse_itens_tiss_xml] at h
  split at h
  · simp at h
  · rename_i cons hc
    split at h
    · simp at h
    · rename_i sadts hs
      injection h with h
      subst h
      rcases List.mem_append.mp hm with h1 | h1
      · obtain ⟨l, hl, hil⟩ := List.mem_flatten.mp h1
        obtain ⟨guia, hguia, hok⟩ := mapME_ok_mem hc hl
        exact Or.inl ⟨guia, hguia, l, hok, hil⟩
      · obtain ⟨l, hl, hil⟩ := List.mem_flatten.mp h1
        obtain ⟨guia, hguia, hok⟩ := mapME_ok_mem hs hl
        exact Or.inr ⟨guia, hguia, l, hok, hil⟩

/-- Guide numbers stamped on every item of a consultation guide. -/
theorem consultaGuiaItems_fields {nome lote : String} {guia : XmlEl}
    {its : List Item} {it : Item}
    (h : consultaGuiaItems nome lote guia = Except.ok its) (hm : it ∈ its) :
    it.numeroGuiaPrestador = tx (findChild guia "numeroGuiaPrestador")
    ∧ it.numeroGuiaOperadora =
        (if tx (findChild guia "numeroGuiaOperadora") = ""
         then tx (findChild guia "numeroGuiaPrestador")
         else tx (findChild guia "numeroGuiaOperadora")) := by
  simp only [consultaGuiaItems] at h
  split at h
  · simp at h
  · rename_i its0 h0
    injection h with h
    subst h
    obtain ⟨b, hb, hbeq⟩ := List.mem_map.mp hm
    subst hbeq
    exact ⟨rfl, rfl⟩

/-- On a SADT guide, a non-empty provider guide number forces a non-empty
payer guide number (the payer number falls back to the provider number). -/
theorem sadtGuiaItems_guide {nome lote : String} {guia : XmlEl}
    {its : List Item} {it : Item}
    (h : sadtGuiaItems nome lote guia = Except.ok its) (hm : it ∈ its)
    (hp : it.numeroGuiaPrestador ≠ "") : it.numeroGuiaOperadora ≠ "" := by
  simp only [sadtGuiaItems] at h
  split at h
  · simp at h
  · rename_i its0 h0
    injection h with h
    subst h
    obtain ⟨b, hb, hbeq⟩ := List.mem_map.mp hm
    subst hbeq
    dsimp only at hp ⊢
    exact ite_ne_empty hp

/-- C4 (amended): for every item produced by `parse_itens_tiss_xml`, the
payer guide number (`numeroGuiaOperadora`) is non-empty whenever the
provider guide number (`numeroGuiaPrestador`) is non-empty, because the
payer number defaults to the provider number when absent.  (When the
document supplies neither identifier, both fields are empty.) -/
theorem parsed_guide_number_default (nome : String) (root : XmlEl)
    (items : List Item) (h : parse_itens_tiss_xml nome root = Except.ok items)
    (it : Item) (hm : it ∈ items) (hp : it.numeroGuiaPrestador ≠ "") :
    it.numeroGuiaOperadora ≠ "" := by
  rcases parse_ok_mem h hm with ⟨guia, _, its, hok, hit⟩ | ⟨guia, _, its, hok, hit⟩
  · obtain ⟨h1, h2⟩ := consultaGuiaItems_fields hok hit
    rw [h2]
    rw [h1] at hp
    exact ite_ne_empty hp
  · exact sadtGuiaItems_guide hok hit hp

/-- A consultation guide carrying no guide-number elements at all. -/
def xroot0 : XmlEl := .mk "mensagemTISS" none [.mk "guiaConsulta" none []]

/-- C4 counterexample: on a document whose consultation guide carries no
guide numbers, `parse_itens_tiss_xml` emits an item whose provider AND
payer guide numbers are both empty, so the at-least-one-guide-number
invariant fails as stated. -/
theorem parse_guide_numbers_cex :
    (parse_itens_tiss_xml "f.xml" xroot0).map
        (fun its => its.map
          (fun it => (it.numeroGuiaPrestador, it.numeroGuiaOperadora)))
      = Except.ok [("", "")] := rfl

/-- A consultation guide carrying a provider guide number. -/
def xroot1 : XmlEl :=
  .mk "mensagemTISS" none
    [.mk "guiaConsulta" none [.mk "numeroGuiaPrestador" (some "A1") []]]

/-- The single item parsed from `xroot1`. -/
def item1 : Item := {
  arquivo := "g.xml", numero_lote := "", tipo_guia := "CONSULTA",
  numeroGuiaPrestador := "A1", numeroGuiaOperadora := "A1",
  paciente := "", medico := "", data_atendimento := "",
  tipo_item := "procedimento", identificadorDespesa := "",
  codigo_tabela := "", codigo_procedimento := "", descricao_procedimento := "",
  quantidade := 1, valor_unitario := 0, valor_total := 0 }

/-- Witness for `parsed_guide_number_default` on a concrete document. -/
theorem parsed_guide_number_default_witness :
    item1.numeroGuiaOperadora ≠ "" :=
  parsed_guide_number_default "g.xml" xroot1 [item1] rfl item1
    (List.mem_singleton_self item1) (by decide)

/-- Unpacking a successful executed-procedure item build. -/
theorem sadtExecItem_spec {el : XmlEl} {it : Item}
    (h : sadtExecItem el = Except.ok it) :
    ∃ qtd vuni vtot : ℚ,
      execQtd el = Except.ok qtd ∧ execVUni el = Except.ok vuni
      ∧ execVTot el = Except.ok vtot
      ∧ it.valor_total = (if vtot = 0 ∧ 0 < vuni ∧ 0 < qtd then vuni * qtd else vtot)
      ∧ it.quantidade = (if 0 < qtd then qtd else 1)
      ∧ it.valor_unitario = (if 0 < vuni then vuni else it.valor_total) := by
  simp only [sadtExecItem] at h
  split at h
  · simp at h
  · rename_i qtd hq
    split at h
    · simp at h
    · rename_i vuni hu
      split at h
      · simp at h
      · rename_i vtot0 ht
        injection h with h
        subst h
        exact ⟨qtd, vuni, vtot0, hq, hu, ht, rfl, rfl, rfl⟩

/-- Unpacking a successful ancillary-expense item build. -/
theorem sadtDespItem_spec {el : XmlEl} {it : Item}
    (h : sadtDespItem el = Except.ok it) :
    ∃ qtd vuni vtot : ℚ,
      despQtd el = Except.ok qtd ∧ despVUni el = Except.ok vuni
      ∧ despVTot el = Except.ok vtot
      ∧ it.valor_total = (if vtot = 0 ∧ 0 < vuni ∧ 0 < qtd then vuni * qtd else vtot)
      ∧ it.quantidade = (if 0 < qtd then qtd else 1)
      ∧ it.valor_unitario = (if 0 < vuni then vuni else it.valor_total) := by
  simp only [sadtDespItem] at h
  split at h
  · simp at h
  · rename_i qtd hq
    split at h
    · simp at h
    · rename_i vuni hu
      split at h
      · simp at h
      · rename_i vtot0 ht
        injection h with h
        subst h
        exact ⟨qtd, vuni, vtot0, hq, hu, ht, rfl, rfl, rfl⟩

/-- C9: every item emitted by `_itens_sadt` carries
`total = unit × quantity` exactly (in exact decimal arithmetic) when the
read total is zero and the read unit value and quantity are both positive;
in every other case the total is emitted as read; and quantity and unit
value are never back-computed from the total (quantity defaults to 1, unit
value falls back to the emitted total). -/
theorem sadt_total_backfill (guia : XmlEl) (items : List Item)
    (h : _itens_sadt guia = Except.ok items) (it : Item) (hm : it ∈ items) :
    ∃ qtd vuni vtot : ℚ,
      ((∃ el ∈ execList guia,
          execQtd el = Except.ok qtd ∧ execVUni el = Except.ok vuni
            ∧ execVTot el = Except.ok vtot)
        ∨ (∃ el ∈ despList guia,
          despQtd el = Except.ok qtd ∧ despVUni el = Except.ok vuni
            ∧ despVTot el = Except.ok vtot))
      ∧ it.valor_total = (if vtot = 0 ∧ 0 < vuni ∧ 0 < qtd then vuni * qtd else vtot)
      ∧ it.quantidade = (if 0 < qtd then qtd else 1)
      ∧ it.valor_unitario = (if 0 < vuni then vuni else it.valor_total) := by
  simp only [_itens_sadt] at h
  split at h
  · simp at h
  · rename_i procs hp
    split at h
    · simp at h
    · rename_i desps hd
      injection h with h
      subst h
      rcases List.mem_append.mp hm with h1 | h1
      · obtain ⟨el, hel, hok⟩ := mapME_ok_mem hp h1
        obtain ⟨q, u, t, hq, hu, ht, h4, h5, h6⟩ := sadtExecItem_spec hok
        exact ⟨q, u, t, Or.inl ⟨el, hel, hq, hu, ht⟩, h4, h5, h6⟩
      · obtain ⟨el, hel, hok⟩ := mapME_ok_mem hd h1
        obtain ⟨q, u, t, hq, hu, ht, h4, h5, h6⟩ := sadtDespItem_spec hok
        exact ⟨q, u, t, Or.inr ⟨el, hel, hq, hu, ht⟩, h4, h5, h6⟩

/-- A SADT guide with one executed procedure: quantity 3, unit value 2.5,
total value 0 (to be back-filled). -/
def sadtGuia0 : XmlEl :=
  .mk "guiaSP-SADT" none [
    .mk "procedimentosExecutados" none [
      .mk "procedimentoExecutado" none [
        .mk "quantidadeExecutada" (some "3") [],
        .mk "valorUnitario" (some "2") [],
        .mk "valorTotal" (some "0") []]]]

/-- The single item `_itens_sadt` builds from `sadtGuia0` (total value
back-filled to `2 × 3 = 6`). -/
def sadtItem0 : Item := {
  tipo_item := "procedimento", identificadorDespesa := "",
  codigo_tabela := "", codigo_procedimento := "", descricao_procedimento := "",
  quantidade := 3, valor_unitario := 2, valor_total := 6 }

/-- Round-trip fact used to evaluate strings: `(List.asString l).data = l`. -/
theorem asString_data (l : List Char) : (List.asString l).data = l := rfl

/-- Concrete evaluation of `_itens_sadt` on `sadtGuia0`: the zero total is
back-filled to `unit × quantity = 6`. -/
theorem sadtGuia0_items : _itens_sadt sadtGuia0 = Except.ok [sadtItem0] := by
  simp +decide [_itens_sadt, mapME, execList, despList, findallDesc, collectPath,
    XmlEl.descendants, XmlEl.descendantsList, XmlEl.children, XmlEl.tag,
    XmlEl.text, findChild, sadtExecItem, execQtd, execVUni, execVTot, tx, dec,
    pyStrip, stripChars, rstripChars, pyIsSpace, commaToDot, parseDecimalString,
    parseMantissa, parseExpPart, digitsToNat, List.splitOn, List.splitOnP,
    List.splitOnP.go, sadtItem0, sadtGuia0, asString_data,
    List.dropWhile_cons, List.dropWhile_nil, List.reverse_cons, List.reverse_nil,
    List.filter, List.flatMap, List.find?, Char.toLower, List.asString,
    String.toList, Item.mk.injEq]
  norm_num

/-- Witness for `sadt_total_backfill` at `sadtGuia0`. -/
theorem sadt_total_backfill_witness :
    ∃ qtd vuni vtot : ℚ,
      ((∃ el ∈ execList sadtGuia0,
          execQtd el = Except.ok qtd ∧ execVUni el = Except.ok vuni
            ∧ execVTot el = Except.ok vtot)
        ∨ (∃ el ∈ despList sadtGuia0,
          despQtd el = Except.ok qtd ∧ despVUni el = Except.ok vuni
            ∧ despVTot el = Except.ok vtot))
      ∧ sadtItem0.valor_total
          = (if vtot = 0 ∧ 0 < vuni ∧ 0 < qtd then vuni * qtd else vtot)
      ∧ sadtItem0.quantidade = (if 0 < qtd then qtd else 1)
      ∧ sadtItem0.valor_unitario
          = (if 0 < vuni then vuni else sadtItem0.valor_total) :=
  sadt_total_backfill sadtGuia0 [sadtItem0] sadtGuia0_items sadtItem0
    (List.mem_singleton_self sadtItem0)

/-- One row of the billed-item table `df_xml` built by `build_xml_df`
(the columns `conciliar_itens` reads or carries). -/
structure XmlRow where
  arquivo : String
  numeroGuiaPrestador : String
  numeroGuiaOperadora : String
  codigo_procedimento : String
  codigo_procedimento_norm : String
  descricao_procedimento : String
  quantidade : ℚ
  valor_unitario : ℚ
  valor_total : ℚ
  chave_prest : String
  chave_oper : String
deriving DecidableEq

/-- One row of the externally supplied payment table `df_demo`
(schema per the spec; `valor_apresentado`/`valor_pago`/`valor_glosa`
may be missing, i.e. `NaN`). -/
structure DemoRow where
  chave_demo : String
  numeroGuiaPrestador : String
  descricao_procedimento : String
  valor_apresentado : Option ℚ
  valor_pago : Option ℚ
  valor_glosa : Option ℚ
  motivo_glosa_codigo : String
  motivo_glosa_descricao : String
  competencia : String
deriving DecidableEq

/-- One row of a merged frame inside `conciliar_itens`: the billed columns
(restored by `_alias_xml_cols` after suffixing), the matched payment row
(`none` models the all-`NaN` right side of an unmatched left join), and the
`matched_on` tag. -/
structure ConcRow where
  xml : XmlRow
  demo : Option DemoRow
  matched_on : String
deriving DecidableEq

/-- Payment rows with a given join key, in table order. -/
def demoHits (key : String) (dfd : List DemoRow) : List DemoRow :=
  dfd.filter (fun d => d.chave_demo == key)

/-- A pandas left-outer merge of billed rows against the payment table on a
chosen key: each left row yields its matching right rows in order, or one
row with `NaN` right columns when there is no match. -/
def leftMergeOn (key : XmlRow → String) (xs : List XmlRow) (dfd : List DemoRow) :
    List ConcRow :=
  xs.flatMap fun x =>
    let hs := demoHits (key x) dfd
    if hs.isEmpty then [⟨x, none, ""⟩] else hs.map fun d => ⟨x, some d, ""⟩

/-- The presented value of a merged row (`NaN` when unmatched or missing). -/
def rowApres (r : ConcRow) : Option ℚ :=
  r.demo.bind DemoRow.valor_apresentado

/-- Tag assignment: the `matched_on` column is the tag where the presented
value is non-null, and empty otherwise. -/
def setMatchedOn (tag : String) (rows : List ConcRow) : List ConcRow :=
  rows.map fun r =>
    { r with matched_on := if (rowApres r).isSome then tag else "" }

/-- Tier-1 merge `m1` of `conciliar_itens`: provider-guide key. -/
def m1 (dfx : List XmlRow) (dfd : List DemoRow) : List ConcRow :=
  setMatchedOn "prestador" (leftMergeOn XmlRow.chave_prest dfx dfd)

/-- Tier-1 leftovers `restante` (rows with no presented value). -/
def restante (dfx : List XmlRow) (dfd : List DemoRow) : List ConcRow :=
  (m1 dfx dfd).filter (fun r => r.matched_on == "")

/-- Tier-2 merge `m2`: the Tier-1 leftovers, reduced to the billed columns
(`restante[cols_xml]`), re-joined on the payer-guide key. -/
def m2 (dfx : List XmlRow) (dfd : List DemoRow) : List ConcRow :=
  setMatchedOn "operadora"
    (leftMergeOn XmlRow.chave_oper ((restante dfx dfd).map ConcRow.xml) dfd)

/-- The Tier-1/Tier-2 reconciled union
`concat([m1[matched_on != ""], m2[matched_on != ""]])`. -/
def tier12 (dfx : List XmlRow) (dfd : List DemoRow) : List ConcRow :=
  (m1 dfx dfd).filter (fun r => r.matched_on != "")
    ++ (m2 dfx dfd).filter (fun r => r.matched_on != "")

/-- Tier-2 leftovers `ainda_sem_match`. -/
def ainda_sem_match (dfx : List XmlRow) (dfd : List DemoRow) : List ConcRow :=
  (m2 dfx dfd).filter (fun r => r.matched_on == "")

/-- Column `guia_join` on the billed side: stripped provider guide number, or the
stripped payer guide number when the former is blank. -/
def guia_join (x : XmlRow) : String :=
  let a := pyStrip x.numeroGuiaPrestador
  if a == "" then pyStrip x.numeroGuiaOperadora else a

/-- The Tier-3 left merge `tmp` of the remaining billed rows against
`df_demo2` on `(guia_join, descricao_procedimento)`; on the payment side
`guia_join` is the stripped provider guide number. -/
def fallbackCandidates (dfx : List XmlRow) (dfd : List DemoRow) : List ConcRow :=
  ((ainda_sem_match dfx dfd).map ConcRow.xml).flatMap fun x =>
    let hs := dfd.filter fun d =>
      (pyStrip d.numeroGuiaPrestador == guia_join x)
        && (d.descricao_procedimento == x.descricao_procedimento)
    if hs.isEmpty then [⟨x, none, ""⟩] else hs.map fun d => ⟨x, some d, ""⟩

/-- The Tier-3 acceptance test `keep`: presented value non-null and
`abs(valor_total - valor_apresentado) <= tol`. -/
def keepTier3 (tol : ℚ) (r : ConcRow) : Bool :=
  match rowApres r with
  | some va => decide (|r.xml.valor_total - va| ≤ tol)
  | none => false

/-- Frame `fallback_matches`: the kept Tier-3 candidates, tagged
`"descricao+valor"`; empty unless the description fallback is enabled and
Tier-2 leftovers exist. -/
def fallback_matches (dfx : List XmlRow) (dfd : List DemoRow) (tol : ℚ)
    (fb : Bool) : List ConcRow :=
  if fb then
    if (ainda_sem_match dfx dfd).isEmpty then []
    else ((fallbackCandidates dfx dfd).filter (keepTier3 tol)).map
      fun r => { r with matched_on := "descricao+valor" }
  else []

/-- The reconciled rows `conc`: Tier-1/2 matches plus Tier-3 matches. -/
def conciliacao_rows (dfx : List XmlRow) (dfd : List DemoRow) (tol : ℚ)
    (fb : Bool) : List ConcRow :=
  tier12 dfx dfd ++ fallback_matches dfx dfd tol fb

/-- Keys `chaves_resolvidas`: provider-guide keys resolved by Tier 3. -/
def chaves_resolvidas (dfx : List XmlRow) (dfd : List DemoRow) (tol : ℚ)
    (fb : Bool) : List String :=
  (fallback_matches dfx dfd tol fb).map (fun r => r.xml.chave_prest)

/-- The unmatched rows before deduplication: Tier-2 leftovers, minus rows
whose `chave_prest` was resolved by Tier 3 when Tier 3 matched anything. -/
def nao_casados_raw (dfx : List XmlRow) (dfd : List DemoRow) (tol : ℚ)
    (fb : Bool) : List ConcRow :=
  if (fallback_matches dfx dfd tol fb).isEmpty then ainda_sem_match dfx dfd
  else (m2 dfx dfd).filter fun r =>
    (r.matched_on == "")
      && !((chaves_resolvidas dfx dfd tol fb).contains r.xml.chave_prest)

/-- Generic first-kept deduplication by a key, the semantics of pandas
`drop_duplicates(subset=...)`. -/
def dedupByFirst {α κ : Type} [DecidableEq κ] (key : α → κ) :
    List α → List α
  | [] => []
  | a :: l => a :: (dedupByFirst key l).filter fun b => decide (key b ≠ key a)

/-- The deduplication key of the unmatched report:
`(arquivo, numeroGuiaPrestador, codigo_procedimento, valor_total)`
(all four columns are always present in this embedding). -/
def tuple4 (r : ConcRow) : String × String × String × ℚ :=
  (r.xml.arquivo, r.xml.numeroGuiaPrestador, r.xml.codigo_procedimento,
    r.xml.valor_total)

/-- The unmatched output `nao_casados` of `conciliar_itens`. -/
def nao_casados (dfx : List XmlRow) (dfd : List DemoRow) (tol : ℚ)
    (fb : Bool) : List ConcRow :=
  let u := nao_casados_raw dfx dfd tol fb
  if u.isEmpty then u else dedupByFirst tuple4 u

/-- Derived column `apresentado_diff` for one row:
`valor_total - valor_apresentado` (`NaN`-propagating). -/
def rowDiff (r : ConcRow) : Option ℚ :=
  (rowApres r).map fun va => r.xml.valor_total - va

/-- Derived column `glosa_pct` for one row: `valor_glosa / valor_apresentado` when
the presented value is positive, else `0.0`; a missing presented value
fails the `> 0` test, a missing denial value propagates as `NaN`. -/
def rowGlosaPct (r : ConcRow) : Option ℚ :=
  match rowApres r with
  | some va =>
      if 0 < va then (r.demo.bind DemoRow.valor_glosa).map (fun g => g / va)
      else some 0
  | none => some 0

/-- The result of `conciliar_itens`: the reconciled table (rows plus the two
derived columns, which exist only when the table is non-empty) and the
unmatched table. -/
structure ConcResult where
  conciliacao : List ConcRow
  apresentado_diff : Option (List (Option ℚ))
  glosa_pct : Option (List (Option ℚ))
  nao_casados : List ConcRow
deriving DecidableEq

/-- Function `conciliar_itens` from `core/conciliation_engine.py`. -/
def conciliar_itens (dfx : List XmlRow) (dfd : List DemoRow)
    (tol : ℚ) (fb : Bool) : ConcResult :=
  let conc := conciliacao_rows dfx dfd tol fb
  if conc.isEmpty then
    { conciliacao := conc, apresentado_diff := none, glosa_pct := none,
      nao_casados := nao_casados dfx dfd tol fb }
  else
    { conciliacao := conc, apresentado_diff := some (conc.map rowDiff),
      glosa_pct := some (conc.map rowGlosaPct),
      nao_casados := nao_casados dfx dfd tol fb }

/-- The reconciled field of the engine result is `conciliacao_rows` in both
branches of the emptiness split. -/
theorem conciliar_conciliacao (dfx : List XmlRow) (dfd : List DemoRow)
    (tol : ℚ) (fb : Bool) :
    (conciliar_itens dfx dfd tol fb).conciliacao = conciliacao_rows dfx dfd tol fb := by
  simp only [conciliar_itens]
  split <;> rfl

/-- The unmatched field of the engine result is `nao_casados` in both
branches of the emptiness split. -/
theorem conciliar_nao_casados (dfx : List XmlRow) (dfd : List DemoRow)
    (tol : ℚ) (fb : Bool) :
    (conciliar_itens dfx dfd tol fb).nao_casados = nao_casados dfx dfd tol fb := by
  simp only [conciliar_itens]
  split <;> rfl

/-- C2: with the description fallback enabled, a Tier-3 candidate row with a
non-null presented value is accepted into `fallback_matches` (tagged
`"descricao+valor"`) exactly when
`abs(valor_total - valor_apresentado) ≤ tolerance`: the boundary
`abs(diff) = tolerance` is accepted and any strictly larger gap is
rejected. -/
theorem tier3_tolerance (dfx : List XmlRow) (dfd : List DemoRow) (tol : ℚ)
    (r : ConcRow) (hr : r ∈ fallbackCandidates dfx dfd) (va : ℚ)
    (hva : rowApres r = some va) :
    ({ r with matched_on := "descricao+valor" }
        ∈ fallback_matches dfx dfd tol true
      ↔ |r.xml.valor_total - va| ≤ tol) := by
  have hc : (ainda_sem_match dfx dfd).map ConcRow.xml ≠ [] := by
    intro h0
    unfold fallbackCandidates at hr
    rw [h0] at hr
    simp at hr
  have hne : (ainda_sem_match dfx dfd).isEmpty = false := by
    cases hA : ainda_sem_match dfx dfd with
    | nil => exact absurd (by simp [hA]) hc
    | cons a t => rfl
  unfold fallback_matches
  rw [if_pos rfl, if_neg (by simp [hne])]
  constructor
  · intro hmem
    obtain ⟨r2, hr2, heq⟩ := List.mem_map.mp hmem
    obtain ⟨hr2c, hkeep⟩ := List.mem_filter.mp hr2
    have hx : r2.xml = r.xml ∧ r2.demo = r.demo := by
      cases r2; cases r
      simp [ConcRow.mk.injEq] at heq
      exact ⟨heq.1, heq.2⟩
    unfold keepTier3 at hkeep
    have hva2 : rowApres r2 = some va := by
      unfold rowApres at hva ⊢
      rw [hx.2, hva]
    rw [hva2] at hkeep
    rw [hx.1] at hkeep
    simpa using hkeep
  · intro hle
    refine List.mem_map.mpr ⟨r, List.mem_filter.mpr ⟨hr, ?_⟩, rfl⟩
    unfold keepTier3
    rw [hva]
    simpa using hle

/-- A billed row left unmatched by Tiers 1-2, with payer statement rows
whose presented value differs from the billed total by exactly the
tolerance (accepted) and by more than it (rejected). -/
def xW2 : XmlRow := {
  arquivo := "a.xml", numeroGuiaPrestador := "G",
  numeroGuiaOperadora := "", codigo_procedimento := "P",
  codigo_procedimento_norm := "P", descricao_procedimento := "D",
  quantidade := 1, valor_unitario := 10, valor_total := 10,
  chave_prest := "G__P", chave_oper := "__P" }

/-- A payment row joining `xW2` only through Tier 3, presented value 11. -/
def dW2 : DemoRow := {
  chave_demo := "ZZ", numeroGuiaPrestador := "G",
  descricao_procedimento := "D", valor_apresentado := some 11,
  valor_pago := some 0, valor_glosa := some 0,
  motivo_glosa_codigo := "", motivo_glosa_descricao := "", competencia := "" }

/-- Witness for `tier3_tolerance`: with tolerance 1 and `abs(10 - 11) = 1`,
the boundary candidate is accepted. -/
theorem tier3_tolerance_witness :
    ({ xml := xW2, demo := some dW2, matched_on := "descricao+valor" } : ConcRow)
      ∈ fallback_matches [xW2] [dW2] 1 true :=
  (tier3_tolerance [xW2] [dW2] 1 ⟨xW2, some dW2, ""⟩ (by decide) 11 (by decide)).mpr
    (by norm_num [xW2])

/-- C10: the reconciled table of `conciliar_itens` is empty exactly when no
row matched in any tier, and the derived columns `apresentado_diff` and
`glosa_pct` are attached to the result exactly when the reconciled table is
non-empty. -/
theorem conciliacao_empty_no_derived_cols (dfx : List XmlRow)
    (dfd : List DemoRow) (tol : ℚ) (fb : Bool) :
    ((conciliar_itens dfx dfd tol fb).conciliacao = []
        ↔ ((m1 dfx dfd).filter (fun r => r.matched_on != "") = []
            ∧ (m2 dfx dfd).filter (fun r => r.matched_on != "") = []
            ∧ fallback_matches dfx dfd tol fb = []))
    ∧ ((conciliar_itens dfx dfd tol fb).conciliacao = [] →
        (conciliar_itens dfx dfd tol fb).apresentado_diff = none
          ∧ (conciliar_itens dfx dfd tol fb).glosa_pct = none)
    ∧ ((conciliar_itens dfx dfd tol fb).conciliacao ≠ [] →
        (conciliar_itens dfx dfd tol fb).apresentado_diff
            = some ((conciliar_itens dfx dfd tol fb).conciliacao.map rowDiff)
          ∧ (conciliar_itens dfx dfd tol fb).glosa_pct
            = some ((conciliar_itens dfx dfd tol fb).conciliacao.map rowGlosaPct)) := by
  refine ⟨?_, ?_, ?_⟩
  · rw [conciliar_conciliacao]
    unfold conciliacao_rows tier12
    simp [List.append_eq_nil, and_assoc]
  · intro h
    simp only [conciliar_itens]
    have hE : (conciliacao_rows dfx dfd tol fb).isEmpty = true := by
      rw [conciliar_conciliacao] at h
      simp [h]
    rw [hE]
    exact ⟨rfl, rfl⟩
  · intro h
    rw [conciliar_conciliacao] at h
    simp only [conciliar_itens]
    have hE : (conciliacao_rows dfx dfd tol fb).isEmpty = false := by
      cases hc : conciliacao_rows dfx dfd tol fb with
      | nil => exact absurd hc h
      | cons a t => rfl
    rw [hE]
    simp [conciliar_conciliacao]

/-- Witness for `conciliacao_empty_no_derived_cols`: with an empty payment
table nothing matches, the reconciled table is empty and carries neither
derived column. -/
theorem conciliacao_empty_no_derived_cols_witness :
    (conciliar_itens [xW2] [] 1 false).apresentado_diff = none
      ∧ (conciliar_itens [xW2] [] 1 false).glosa_pct = none :=
  (conciliacao_empty_no_derived_cols [xW2] [] 1 false).2.1 (by decide)

/-- Deduplicated output is a sub-collection of the input. -/
theorem dedupByFirst_subset {α κ : Type} [DecidableEq κ] (key : α → κ)
    (l : List α) : ∀ x, x ∈ dedupByFirst key l → x ∈ l := by
  induction l with
  | nil =>
    intro x h
    simp [dedupByFirst] at h
  | cons a t ih =>
    intro x h
    rw [dedupByFirst] at h
    rcases List.mem_cons.mp h with h1 | h1
    · exact h1 ▸ List.mem_cons_self a t
    · exact List.mem_cons_of_mem a (ih x (List.mem_filter.mp h1).1)

/-- Every input key survives deduplication through some representative. -/
theorem dedupByFirst_cover {α κ : Type} [DecidableEq κ] (key : α → κ)
    (l : List α) : ∀ x ∈ l, ∃ y ∈ dedupByFirst key l, key y = key x := by
  induction l with
  | nil =>
    intro x h
    cases h
  | cons a t ih =>
    intro x h
    rw [dedupByFirst]
    by_cases hk : key x = key a
    · exact ⟨a, List.mem_cons_self _ _, hk.symm⟩
    · rcases List.mem_cons.mp h with h1 | h1
      · exact absurd (congrArg key h1) hk
      · obtain ⟨y, hy, hky⟩ := ih x h1
        have hyf : y ∈ (dedupByFirst key t).filter
            fun b => decide (key b ≠ key a) := by
          refine List.mem_filter.mpr ⟨hy, ?_⟩
          simp [hky, hk]
        exact ⟨y, List.mem_cons_of_mem a hyf, hky⟩

/-- After deduplication the keys are pairwise distinct. -/
theorem dedupByFirst_nodup {α κ : Type} [DecidableEq κ] (key : α → κ)
    (l : List α) : ((dedupByFirst key l).map key).Nodup := by
  induction l with
  | nil => simp [dedupByFirst]
  | cons a t ih =>
    rw [dedupByFirst]
    simp only [List.map_cons, List.nodup_cons]
    constructor
    · intro hmem
      obtain ⟨y, hy, hky⟩ := List.mem_map.mp hmem
      have h2 := (List.mem_filter.mp hy).2
      simp at h2
      exact h2 hky
    · exact List.Nodup.sublist ((List.filter_sublist _).map key) ih

/-- Decomposition of one row of a tagged left merge: the billed row comes
from the left table; either there was no key hit (right side `NaN`,
unmatched) or the row pairs a key hit, tagged according to its presented
value. -/
theorem merge_row_cases {dfd : List DemoRow} {key : XmlRow → String}
    {xs : List XmlRow} {tag : String} {r : ConcRow}
    (hr : r ∈ setMatchedOn tag (leftMergeOn key xs dfd)) :
    r.xml ∈ xs
    ∧ ((demoHits (key r.xml) dfd = [] ∧ r.demo = none ∧ r.matched_on = "")
      ∨ (∃ d ∈ demoHits (key r.xml) dfd, r.demo = some d
          ∧ r.matched_on
              = (if (DemoRow.valor_apresentado d).isSome then tag else ""))) := by
  simp only [setMatchedOn] at hr
  obtain ⟨r0, hr0, rfl⟩ := List.mem_map.mp hr
  simp only [leftMergeOn] at hr0
  obtain ⟨x, hx, hrx⟩ := List.mem_flatMap.mp hr0
  by_cases he : (demoHits (key x) dfd).isEmpty
  · rw [if_pos he] at hrx
    have hr0x : r0 = ⟨x, none, ""⟩ := by simpa using hrx
    subst hr0x
    have hnil : demoHits (key x) dfd = [] := by
      cases h2 : demoHits (key x) dfd with
      | nil => rfl
      | cons u v => rw [h2] at he; cases he
    exact ⟨hx, Or.inl ⟨hnil, rfl, by simp [rowApres]⟩⟩
  · rw [if_neg he] at hrx
    obtain ⟨d, hd, rfl⟩ := List.mem_map.mp hrx
    exact ⟨hx, Or.inr ⟨d, hd, rfl, by simp [rowApres]⟩⟩

/-- When every payment row has a non-missing presented value, a tagged
merge row is either unmatched with no key hit, or matched with some hit. -/
theorem merge_row_status {dfd : List DemoRow}
    (hva : ∀ d ∈ dfd, (DemoRow.valor_apresentado d).isSome = true)
    {key : XmlRow → String} {xs : List XmlRow} {tag : String} {r : ConcRow}
    (hr : r ∈ setMatchedOn tag (leftMergeOn key xs dfd)) :
    r.xml ∈ xs
    ∧ ((r.matched_on = "" ∧ demoHits (key r.xml) dfd = [])
      ∨ (r.matched_on = tag ∧ demoHits (key r.xml) dfd ≠ [])) := by
  obtain ⟨hx, hcase⟩ := merge_row_cases hr
  refine ⟨hx, ?_⟩
  rcases hcase with ⟨hnil, _, hm⟩ | ⟨d, hd, _, hm⟩
  · exact Or.inl ⟨hm, hnil⟩
  · have hdd : d ∈ dfd := (List.mem_filter.mp hd).1
    have hds := hva d hdd
    refine Or.inr ⟨by rw [hm, if_pos hds], ?_⟩
    intro h0
    rw [h0] at hd
    cases hd

/-- Under the non-missing-presented hypothesis, every Tier-1 leftover
projects to a billed row with no provider-key hit. -/
theorem restante_xml_hits {dfx : List XmlRow} {dfd : List DemoRow}
    (hva : ∀ d ∈ dfd, (DemoRow.valor_apresentado d).isSome = true)
    {x : XmlRow} (hx : x ∈ (restante dfx dfd).map ConcRow.xml) :
    demoHits x.chave_prest dfd = [] := by
  obtain ⟨r0, hr0, rfl⟩ := List.mem_map.mp hx
  obtain ⟨hm1, hmo⟩ := List.mem_filter.mp hr0
  have hmo2 : r0.matched_on = "" := by simpa using hmo
  unfold m1 at hm1
  obtain ⟨_, hst⟩ := merge_row_status hva hm1
  rcases hst with ⟨_, hnil⟩ | ⟨hp, _⟩
  · exact hnil
  · rw [hmo2] at hp
    simp at hp

/-- A Tier-3 candidate projects to a Tier-2 leftover billed row. -/
theorem fallbackCandidates_xml {dfx : List XmlRow} {dfd : List DemoRow}
    {r : ConcRow} (h : r ∈ fallbackCandidates dfx dfd) :
    r.xml ∈ (ainda_sem_match dfx dfd).map ConcRow.xml := by
  simp only [fallbackCandidates] at h
  obtain ⟨x, hx, hrx⟩ := List.mem_flatMap.mp h
  by_cases he : (dfd.filter fun d =>
      (pyStrip d.numeroGuiaPrestador == guia_join x)
        && (d.descricao_procedimento == x.descricao_procedimento)).isEmpty
  · rw [if_pos he] at hrx
    have : r = ⟨x, none, ""⟩ := by simpa using hrx
    subst this
    exact hx
  · rw [if_neg he] at hrx
    obtain ⟨d, _, rfl⟩ := List.mem_map.mp hrx
    exact hx

/-- Under the non-missing-presented hypothesis, a Tier-2 leftover billed
row has no provider-key hit and no payer-key hit. -/
theorem ainda_xml_hits {dfx : List XmlRow} {dfd : List DemoRow}
    (hva : ∀ d ∈ dfd, (DemoRow.valor_apresentado d).isSome = true)
    {x : XmlRow} (hx : x ∈ (ainda_sem_match dfx dfd).map ConcRow.xml) :
    demoHits x.chave_prest dfd = [] ∧ demoHits x.chave_oper dfd = [] := by
  obtain ⟨r0, hr0, rfl⟩ := List.mem_map.mp hx
  obtain ⟨hm2, hmo⟩ := List.mem_filter.mp hr0
  have hmo2 : r0.matched_on = "" := by simpa using hmo
  unfold m2 at hm2
  obtain ⟨hxr, hst⟩ := merge_row_status hva hm2
  constructor
  · exact restante_xml_hits hva hxr
  · rcases hst with ⟨_, hnil⟩ | ⟨hp, _⟩
    · exact hnil
    · rw [hmo2] at hp
      simp at hp

/-- Under the non-missing-presented hypothesis, every reconciled row is a
Tier-1 match (provider hit), a Tier-2 match (no provider hit, payer hit) or
a Tier-3 match (no key hit at all), with the corresponding tag. -/
theorem conc_row_status {dfx : List XmlRow} {dfd : List DemoRow} {tol : ℚ}
    {fb : Bool}
    (hva : ∀ d ∈ dfd, (DemoRow.valor_apresentado d).isSome = true)
    {r : ConcRow} (hr : r ∈ conciliacao_rows dfx dfd tol fb) :
    (r.matched_on = "prestador" ∧ demoHits r.xml.chave_prest dfd ≠ [])
    ∨ (r.matched_on = "operadora" ∧ demoHits r.xml.chave_prest dfd = []
        ∧ demoHits r.xml.chave_oper dfd ≠ [])
    ∨ (r.matched_on = "descricao+valor" ∧ demoHits r.xml.chave_prest dfd = []
        ∧ demoHits r.xml.chave_oper dfd = []) := by
  unfold conciliacao_rows tier12 at hr
  rcases List.mem_append.mp hr with h12 | h3
  · rcases List.mem_append.mp h12 with hA | hB
    · obtain ⟨hm1, hne⟩ := List.mem_filter.mp hA
      unfold m1 at hm1
      obtain ⟨_, hst⟩ := merge_row_status hva hm1
      rcases hst with ⟨hmo, _⟩ | ⟨hmo, hne2⟩
      · rw [hmo] at hne; simp at hne
      · exact Or.inl ⟨hmo, hne2⟩
    · obtain ⟨hm2, hne⟩ := List.mem_filter.mp hB
      unfold m2 at hm2
      obtain ⟨hxr, hst⟩ := merge_row_status hva hm2
      rcases hst with ⟨hmo, _⟩ | ⟨hmo, hne2⟩
      · rw [hmo] at hne; simp at hne
      · exact Or.inr (Or.inl ⟨hmo, restante_xml_hits hva hxr, hne2⟩)
  · unfold fallback_matches at h3
    by_cases hfb : fb
    · rw [if_pos hfb] at h3
      by_cases hemp : (ainda_sem_match dfx dfd).isEmpty
      · rw [if_pos hemp] at h3; cases h3
      · rw [if_neg hemp] at h3
        obtain ⟨r2, hr2, rfl⟩ := List.mem_map.mp h3
        have hr2c := (List.mem_filter.mp hr2).1
        have hx := fallbackCandidates_xml hr2c
        obtain ⟨hp, ho⟩ := ainda_xml_hits hva hx
        exact Or.inr (Or.inr ⟨rfl, hp, ho⟩)
    · rw [if_neg hfb] at h3; cases h3

/-- C1 (amended): the three matching tiers run in strict order, each tier
consuming only rows left unmatched by the previous tier, and the reconciled
output size is the total number of rows matched across the three tiers;
when every payment row carries a non-missing presented value, no billed
item appears in the reconciled output under more than one `matched_on` tag.
(Without that proviso, a billed row that joins duplicate payment keys with
mixed missing/non-missing presented values can match in two tiers; see the
counterexample.) -/
theorem matching_tiers (dfx : List XmlRow) (dfd : List DemoRow) (tol : ℚ)
    (fb : Bool) :
    ((conciliar_itens dfx dfd tol fb).conciliacao.length
        = ((m1 dfx dfd).filter (fun r => r.matched_on != "")).length
          + ((m2 dfx dfd).filter (fun r => r.matched_on != "")).length
          + (fallback_matches dfx dfd tol fb).length)
    ∧ (∀ r ∈ m2 dfx dfd,
        ∃ r0 ∈ m1 dfx dfd, r0.matched_on = "" ∧ r0.xml = r.xml)
    ∧ (∀ r ∈ fallback_matches dfx dfd tol fb,
        ∃ r0 ∈ m2 dfx dfd, r0.matched_on = "" ∧ r0.xml = r.xml)
    ∧ ((∀ d ∈ dfd, (DemoRow.valor_apresentado d).isSome = true) →
        ∀ r1 ∈ (conciliar_itens dfx dfd tol fb).conciliacao,
        ∀ r2 ∈ (conciliar_itens dfx dfd tol fb).conciliacao,
          r1.xml = r2.xml → r1.matched_on = r2.matched_on) := by
  refine ⟨?_, ?_, ?_, ?_⟩
  · rw [conciliar_conciliacao]
    unfold conciliacao_rows tier12
    simp [List.length_append, Nat.add_assoc]
  · intro r hr
    unfold m2 at hr
    obtain ⟨hx, _⟩ := merge_row_cases hr
    obtain ⟨r0, hr0, hxeq⟩ := List.mem_map.mp hx
    obtain ⟨hm1, hmo⟩ := List.mem_filter.mp hr0
    exact ⟨r0, hm1, by simpa using hmo, hxeq⟩
  · intro r hr
    unfold fallback_matches at hr
    by_cases hfb : fb
    · rw [if_pos hfb] at hr
      by_cases hemp : (ainda_sem_match dfx dfd).isEmpty
      · rw [if_pos hemp] at hr
        cases hr
      · rw [if_neg hemp] at hr
        obtain ⟨r2, hr2, rfl⟩ := List.mem_map.mp hr
        have hx := fallbackCandidates_xml (List.mem_filter.mp hr2).1
        obtain ⟨r0, hr0, hxeq⟩ := List.mem_map.mp hx
        obtain ⟨hm2, hmo⟩ := List.mem_filter.mp hr0
        exact ⟨r0, hm2, by simpa using hmo, hxeq⟩
    · rw [if_neg hfb] at hr
      cases hr
  · intro hva r1 h1 r2 h2 hxml
    rw [conciliar_conciliacao] at h1 h2
    have s1 := conc_row_status hva h1
    have s2 := conc_row_status hva h2
    rcases s1 with ⟨t1, c1⟩ | ⟨t1, c1, c1b⟩ | ⟨t1, c1, c1b⟩ <;>
      rcases s2 with ⟨t2, c2⟩ | ⟨t2, c2, c2b⟩ | ⟨t2, c2, c2b⟩
    · rw [t1, t2]
    · rw [hxml] at c1; exact absurd c2 c1
    · rw [hxml] at c1; exact absurd c2 c1
    · rw [hxml] at c1; exact absurd c1 c2
    · rw [t1, t2]
    · rw [hxml] at c1b; exact absurd c2b c1b
    · rw [hxml] at c1; exact absurd c1 c2
    · rw [hxml] at c1b; exact absurd c1b c2b
    · rw [t1, t2]

/-- A billed row whose provider key and payer key both have payment hits. -/
def xC1 : XmlRow := {
  arquivo := "a.xml", numeroGuiaPrestador := "G1",
  numeroGuiaOperadora := "G2", codigo_procedimento := "P",
  codigo_procedimento_norm := "P", descricao_procedimento := "D",
  quantidade := 1, valor_unitario := 5, valor_total := 5,
  chave_prest := "KP", chave_oper := "KO" }

/-- A provider-key payment row with MISSING presented value. -/
def dC1null : DemoRow := {
  chave_demo := "KP", numeroGuiaPrestador := "G1",
  descricao_procedimento := "D", valor_apresentado := none,
  valor_pago := none, valor_glosa := none,
  motivo_glosa_codigo := "", motivo_glosa_descricao := "", competencia := "" }

/-- A provider-key payment row with presented value 5. -/
def dC1prest : DemoRow := {
  chave_demo := "KP", numeroGuiaPrestador := "G1",
  descricao_procedimento := "D", valor_apresentado := some 5,
  valor_pago := some 5, valor_glosa := some 0,
  motivo_glosa_codigo := "", motivo_glosa_descricao := "", competencia := "" }

/-- A payer-key payment row with presented value 7. -/
def dC1oper : DemoRow := {
  chave_demo := "KO", numeroGuiaPrestador := "G2",
  descricao_procedimento := "D", valor_apresentado := some 7,
  valor_pago := some 7, valor_glosa := some 0,
  motivo_glosa_codigo := "", motivo_glosa_descricao := "", competencia := "" }

/-- C1 counterexample: with a duplicate provider key carrying one missing
and one present presented value, the SAME billed item is matched by Tier 1
(`"prestador"`) through the present duplicate AND, via the missing
duplicate that lands in the leftovers, by Tier 2 (`"operadora"`): one
billed item appears in the reconciled output under two `matched_on`
tags. -/
theorem matching_tiers_cex :
    ¬ (∀ r1 ∈ (conciliar_itens [xC1] [dC1null, dC1prest, dC1oper] 1
          false).conciliacao,
       ∀ r2 ∈ (conciliar_itens [xC1] [dC1null, dC1prest, dC1oper] 1
          false).conciliacao,
         r1.xml = r2.xml → r1.matched_on = r2.matched_on) := by
  decide

/-- A second provider-key payment row with presented value 5 (duplicate
key, both presented values present). -/
def dC1prest2 : DemoRow := {
  chave_demo := "KP", numeroGuiaPrestador := "G1",
  descricao_procedimento := "D", valor_apresentado := some 4,
  valor_pago := some 4, valor_glosa := some 0,
  motivo_glosa_codigo := "", motivo_glosa_descricao := "", competencia := "" }

/-- Witness for `matching_tiers`: with all presented values present, the two
reconciled rows of the same billed item carry the same tag. -/
theorem matching_tiers_witness :
    (⟨xC1, some dC1prest, "prestador"⟩ : ConcRow).matched_on
      = (⟨xC1, some dC1prest2, "prestador"⟩ : ConcRow).matched_on :=
  (matching_tiers [xC1] [dC1prest, dC1prest2] 1 false).2.2.2 (by decide)
    ⟨xC1, some dC1prest, "prestador"⟩ (by decide)
    ⟨xC1, some dC1prest2, "prestador"⟩ (by decide) rfl

/-- C6: the unmatched output equals the Tier-2 leftovers minus rows whose
provider-guide key was resolved by Tier 3, de-duplicated by
`(arquivo, numeroGuiaPrestador, codigo_procedimento, valor_total)`:
the pre-dedup pool is exactly the characterized set, every output row comes
from the pool, every pool row is represented in the output by a row with
the same 4-tuple, and output 4-tuples are pairwise distinct (so duplicated
billed items yield exactly one unmatched row per 4-tuple group). -/
theorem unmatched_dedup (dfx : List XmlRow) (dfd : List DemoRow) (tol : ℚ)
    (fb : Bool) :
    (∀ r, r ∈ nao_casados_raw dfx dfd tol fb
        ↔ (r ∈ m2 dfx dfd ∧ r.matched_on = ""
            ∧ (fallback_matches dfx dfd tol fb ≠ [] →
                r.xml.chave_prest ∉ chaves_resolvidas dfx dfd tol fb)))
    ∧ (∀ r ∈ (conciliar_itens dfx dfd tol fb).nao_casados,
        r ∈ nao_casados_raw dfx dfd tol fb)
    ∧ (∀ r ∈ nao_casados_raw dfx dfd tol fb,
        ∃ u ∈ (conciliar_itens dfx dfd tol fb).nao_casados,
          tuple4 u = tuple4 r)
    ∧ (((conciliar_itens dfx dfd tol fb).nao_casados).map tuple4).Nodup := by
  have hchar : ∀ r, r ∈ nao_casados_raw dfx dfd tol fb
      ↔ (r ∈ m2 dfx dfd ∧ r.matched_on = ""
          ∧ (fallback_matches dfx dfd tol fb ≠ [] →
              r.xml.chave_prest ∉ chaves_resolvidas dfx dfd tol fb)) := by
    intro r
    unfold nao_casados_raw
    by_cases hf : (fallback_matches dfx dfd tol fb).isEmpty
    · rw [if_pos hf]
      have hfe : fallback_matches dfx dfd tol fb = [] := by
        cases hc : fallback_matches dfx dfd tol fb with
        | nil => rfl
        | cons a t => rw [hc] at hf; cases hf
      unfold ainda_sem_match
      simp [List.mem_filter, hfe]
    · rw [if_neg hf]
      have hfe : fallback_matches dfx dfd tol fb ≠ [] := by
        intro hc
        rw [hc] at hf
        exact hf rfl
      simp [List.mem_filter, hfe, List.contains, List.elem_eq_mem,
        and_assoc]
  refine ⟨hchar, ?_, ?_, ?_⟩
  · intro r hr
    rw [conciliar_nao_casados] at hr
    unfold nao_casados at hr
    by_cases he : (nao_casados_raw dfx dfd tol fb).isEmpty
    · rw [if_pos he] at hr
      exact hr
    · rw [if_neg he] at hr
      exact dedupByFirst_subset tuple4 _ r hr
  · intro r hr
    rw [conciliar_nao_casados]
    unfold nao_casados
    by_cases he : (nao_casados_raw dfx dfd tol fb).isEmpty
    · rw [if_pos he]
      exact ⟨r, hr, rfl⟩
    · rw [if_neg he]
      exact dedupByFirst_cover tuple4 _ r hr
  · rw [conciliar_nao_casados]
    unfold nao_casados
    by_cases he : (nao_casados_raw dfx dfd tol fb).isEmpty
    · rw [if_pos he]
      have : nao_casados_raw dfx dfd tol fb = [] := by
        cases hc : nao_casados_raw dfx dfd tol fb with
        | nil => rfl
        | cons a t => rw [hc] at he; cases he
      rw [this]
      simp
    · rw [if_neg he]
      exact dedupByFirst_nodup tuple4 _

/-- Witness for `unmatched_dedup`: two identical billed items with an empty
payment table produce a two-row pre-dedup pool but exactly one unmatched
output row carrying their common 4-tuple. -/
theorem unmatched_dedup_witness :
    (nao_casados_raw [xW2, xW2] [] 1 false).length = 2
    ∧ (conciliar_itens [xW2, xW2] [] 1 false).nao_casados.length = 1
    ∧ ∃ u ∈ (conciliar_itens [xW2, xW2] [] 1 false).nao_casados,
        tuple4 u = tuple4 ⟨xW2, none, ""⟩ :=
  ⟨by decide, by decide,
    (unmatched_dedup [xW2, xW2] [] 1 false).2.2.1 ⟨xW2, none, ""⟩ (by decide)⟩

/-- One row of the reconciled table as consumed by `core/analytics.py`
(the aliased columns the analytics functions read). -/
structure ARow where
  codigo_procedimento : String
  descricao_procedimento : String
  competencia : String
  motivo_glosa_codigo : String
  motivo_glosa_descricao : String
  valor_apresentado : Option ℚ
  valor_pago : Option ℚ
  valor_glosa : Option ℚ
deriving DecidableEq

/-- A pandas column sum: `NaN` cells contribute nothing (`skipna`), an
all-missing or empty column sums to `0.0`. -/
def osum (l : List (Option ℚ)) : ℚ :=
  (l.map (fun o => o.getD 0)).sum

/-- Pandas float64 division: `none` models the non-finite result
(`inf`/`NaN`) produced when the denominator is zero. -/
def fdiv (a b : ℚ) : Option ℚ :=
  if b = 0 then none else some (a / b)

/-- One output row of `kpis_por_competencia`. -/
structure KpiRow where
  competencia : String
  valor_apresentado : ℚ
  valor_pago : ℚ
  valor_glosa : ℚ
  glosa_pct : ℚ
deriving DecidableEq

/-- Function `kpis_por_competencia` from `core/analytics.py`: group by competence
label, sum the three value columns, guard the denial ratio, sort by
competence. -/
def kpis_por_competencia (df : List ARow) : List KpiRow :=
  if df.isEmpty then [] else
  let ks := (dedupByFirst id (df.map ARow.competencia)).mergeSort
    (fun a b => decide (a ≤ b))
  ks.map fun k =>
    let g := df.filter fun r => r.competencia == k
    let va := osum (g.map ARow.valor_apresentado)
    let vp := osum (g.map ARow.valor_pago)
    let vg := osum (g.map ARow.valor_glosa)
    { competencia := k, valor_apresentado := va, valor_pago := vp,
      valor_glosa := vg, glosa_pct := if 0 < va then vg / va else 0 }

/-- One output row of `ranking_itens_glosa`. -/
structure RankRow where
  codigo_procedimento : String
  descricao_procedimento : String
  valor_apresentado : ℚ
  valor_glosa : ℚ
  valor_pago : ℚ
  qtd_glosada : Nat
  glosa_pct : Option ℚ
deriving DecidableEq

/-- Descending order on optional percentages, `NaN`/`inf`-like values
(`none`) last, as in `sort_values(ascending=False)`. -/
def optDescLe (a b : Option ℚ) : Bool :=
  match a, b with
  | some x, some y => decide (y ≤ x)
  | some _, none => true
  | none, some _ => false
  | none, none => true

/-- Function `ranking_itens_glosa` from `core/analytics.py`: group by
(procedure code, description); keep groups with positive denial total;
`glosa_pct = valor_glosa / valor_apresentado * 100` — with NO zero guard on
the denominator; rank by denial value and, over groups meeting the
minimum-presented floor, by percentage. -/
def ranking_itens_glosa (df : List ARow) (min_apresentado : ℚ)
    (topn : Nat) : List RankRow × List RankRow :=
  if df.isEmpty then ([], []) else
  let keys := (dedupByFirst id (df.map fun r =>
      (r.codigo_procedimento, r.descricao_procedimento))).mergeSort
    (fun a b => decide (a.1 < b.1 ∨ (a.1 = b.1 ∧ a.2 ≤ b.2)))
  let grp := keys.map fun k =>
    let g := df.filter fun r =>
      (r.codigo_procedimento, r.descricao_procedimento) == k
    ({ codigo_procedimento := k.1, descricao_procedimento := k.2,
       valor_apresentado := osum (g.map ARow.valor_apresentado),
       valor_glosa := osum (g.map ARow.valor_glosa),
       valor_pago := osum (g.map ARow.valor_pago),
       qtd_glosada :=
         (g.filter fun r => decide (0 < (ARow.valor_glosa r).getD 0)).length,
       glosa_pct := none } : RankRow)
  let grp_com_glosa := (grp.filter fun g => decide (0 < g.valor_glosa)).map
    fun g =>
      { g with
        glosa_pct := (fdiv g.valor_glosa g.valor_apresentado).map
          (fun q => q * 100) }
  if grp_com_glosa.isEmpty then ([], [])
  else
    ((grp_com_glosa.mergeSort fun a b =>
        decide (b.valor_glosa ≤ a.valor_glosa)).take topn,
     ((grp_com_glosa.filter fun g =>
          decide (min_apresentado ≤ g.valor_apresentado)).mergeSort
        fun a b => optDescLe a.glosa_pct b.glosa_pct).take topn)

/-- One output row of `simulador_glosa` (the input row plus the three
simulated columns). -/
structure SimRow where
  base : ARow
  valor_glosa_sim : Option ℚ
  valor_pago_sim : Option ℚ
  glosa_pct_sim : Option ℚ
deriving DecidableEq

/-- Missing-value-propagating subtraction of two float columns. -/
def osub (a b : Option ℚ) : Option ℚ :=
  match a, b with
  | some x, some y => some (x - y)
  | _, _ => none

/-- The simulated denial value of one row before clipping: the loop
`for cod, fator in ajustes` overwrites masked rows with
`valor_glosa * fator`, always from the ORIGINAL denial value, so the last
matching adjustment wins and unmatched rows keep the original value. -/
def simGlosaSim (ajustes : List (String × ℚ)) (r : ARow) : Option ℚ :=
  ajustes.foldl
    (fun acc p =>
      if r.motivo_glosa_codigo = p.1 then r.valor_glosa.map (fun g => g * p.2)
      else acc)
    r.valor_glosa

/-- Function `simulador_glosa` from `core/analytics.py`: clip the simulated denial
at zero, recompute the simulated paid value `presented - simulated denial`
clipped at zero, and the guarded simulated denial ratio. -/
def simulador_glosa (df : List ARow) (ajustes : List (String × ℚ)) :
    List SimRow :=
  if df.isEmpty then [] else
  df.map fun r =>
    let gs := (simGlosaSim ajustes r).map fun v => max v 0
    let ps := (osub r.valor_apresentado gs).map fun v => max v 0
    let pct := match r.valor_apresentado with
      | some va =>
          if 0 < va then gs.map (fun g => g / va) else some 0
      | none => some 0
    { base := r, valor_glosa_sim := gs, valor_pago_sim := ps,
      glosa_pct_sim := pct }

/-- C3 (amended): the denial ratios of `conciliar_itens` (`glosa_pct`),
`kpis_por_competencia` and `simulador_glosa` (`glosa_pct_sim`) are guarded:
whenever the presented value is missing or not positive the ratio is `0`,
never a division error; but the percentage of `ranking_itens_glosa` is NOT
guarded: a ranked group whose presented total is `0` gets a non-finite
(`inf`/`NaN`-like) percentage. -/
theorem ratio_guards :
    (∀ (dfx : List XmlRow) (dfd : List DemoRow) (tol : ℚ) (fb : Bool)
        (pcts : List (Option ℚ)),
        (conciliar_itens dfx dfd tol fb).glosa_pct = some pcts →
        pcts = (conciliar_itens dfx dfd tol fb).conciliacao.map rowGlosaPct)
    ∧ (∀ r : ConcRow, rowApres r = none → rowGlosaPct r = some 0)
    ∧ (∀ (r : ConcRow) (va : ℚ), rowApres r = some va → va ≤ 0 →
        rowGlosaPct r = some 0)
    ∧ (∀ df : List ARow, ∀ k ∈ kpis_por_competencia df,
        k.valor_apresentado ≤ 0 → k.glosa_pct = 0)
    ∧ (∀ (df : List ARow) (aj : List (String × ℚ)),
        ∀ s ∈ simulador_glosa df aj,
        (s.base.valor_apresentado = none → s.glosa_pct_sim = some 0)
          ∧ (∀ va : ℚ, s.base.valor_apresentado = some va → va ≤ 0 →
              s.glosa_pct_sim = some 0))
    ∧ (∀ (df : List ARow) (mn : ℚ) (tn : Nat),
        ∀ g ∈ (ranking_itens_glosa df mn tn).1,
          g.valor_apresentado = 0 → g.glosa_pct = none) := by
  refine ⟨?_, ?_, ?_, ?_, ?_, ?_⟩
  · intro dfx dfd tol fb pcts h
    simp only [conciliar_itens] at h
    split at h
    · simp at h
    · injection h with h
      rw [conciliar_conciliacao]
      exact h.symm
  · intro r h
    simp [rowGlosaPct, h]
  · intro r va h hle
    simp only [rowGlosaPct, h]
    rw [if_neg (not_lt.mpr hle)]
  · intro df k hk hle
    simp only [kpis_por_competencia] at hk
    split at hk
    · cases hk
    · obtain ⟨kk, hkk, rfl⟩ := List.mem_map.mp hk
      dsimp only at hle ⊢
      rw [if_neg (not_lt.mpr hle)]
  · intro df aj s hs
    simp only [simulador_glosa] at hs
    split at hs
    · cases hs
    · obtain ⟨r, hrr, rfl⟩ := List.mem_map.mp hs
      constructor
      · intro h
        dsimp only at h ⊢
        rw [h]
      · intro va h hle
        dsimp only at h ⊢
        have hnl : ¬ 0 < va := not_lt.mpr hle
        simp [h, hnl]
  · intro df mn tn g hg hva
    simp only [ranking_itens_glosa] at hg
    split at hg
    · cases hg
    · split at hg
      · cases hg
      · have h1 := List.mem_of_mem_take hg
        have h2 := List.mem_mergeSort.mp h1
        obtain ⟨g0, hg0, rfl⟩ := List.mem_map.mp h2
        dsimp only at hva ⊢
        rw [hva]
        simp [fdiv]

/-- A reconciled row whose presented value is zero. -/
def crW3 : ConcRow := ⟨xW2, some {
  chave_demo := "G__P", numeroGuiaPrestador := "G",
  descricao_procedimento := "D", valor_apresentado := some 0,
  valor_pago := some 0, valor_glosa := some 5,
  motivo_glosa_codigo := "", motivo_glosa_descricao := "",
  competencia := "" }, "prestador"⟩

/-- Witness for `ratio_guards`: a zero presented value yields ratio 0 in
the reconciliation output. -/
theorem ratio_guards_witness : rowGlosaPct crW3 = some 0 :=
  ratio_guards.2.2.1 crW3 0 (by decide) le_rfl

/-- A reconciled slice with positive denial total and zero presented
total. -/
def aC3 : ARow := {
  codigo_procedimento := "C", descricao_procedimento := "D",
  competencia := "", motivo_glosa_codigo := "",
  motivo_glosa_descricao := "", valor_apresentado := some 0,
  valor_pago := some 0, valor_glosa := some 5 }

/-- The single ranked group built from `[aC3]`. -/
def rk0 : RankRow := {
  codigo_procedimento := "C", descricao_procedimento := "D",
  valor_apresentado := 0, valor_glosa := 5, valor_pago := 0,
  qtd_glosada := 1, glosa_pct := none }

/-- Concrete evaluation of the ranking on `[aC3]`. -/
theorem ranking_aC3 :
    ranking_itens_glosa [aC3] 0 20 = ([rk0], [rk0]) := by
  simp +decide [ranking_itens_glosa, dedupByFirst, osum, fdiv, optDescLe,
    List.mergeSort, aC3, rk0, RankRow.mk.injEq]

/-- C3 counterexample: `ranking_itens_glosa` divides by the group's
presented total without a zero guard: on a group with presented total `0`
and denial total `5` the output percentage is non-finite
(`5/0 * 100 = inf` in the float source, `none` in the model), not `0`. -/
theorem ranking_ratio_cex :
    rk0 ∈ (ranking_itens_glosa [aC3] 0 20).1
      ∧ rk0.valor_apresentado = 0
      ∧ rk0.glosa_pct = none
      ∧ ∀ q : ℚ, rk0.glosa_pct ≠ some q := by
  refine ⟨?_, rfl, rfl, ?_⟩
  · rw [ranking_aC3]
    exact List.mem_singleton_self rk0
  · intro q h
    cases h

/-- Adjustment folding: with no matching reason code the accumulator is
returned unchanged. -/
theorem simGlosaSim_foldl_nomatch {r : ARow} (aj : List (String × ℚ))
    (h : ∀ p ∈ aj, r.motivo_glosa_codigo ≠ p.1) (acc : Option ℚ) :
    aj.foldl
        (fun acc p => if r.motivo_glosa_codigo = p.1
          then r.valor_glosa.map (fun g => g * p.2) else acc) acc
      = acc := by
  induction aj generalizing acc with
  | nil => rfl
  | cons q t ih =>
    rw [List.foldl_cons, if_neg (h q (List.mem_cons_self q t))]
    exact ih (fun p hp => h p (List.mem_cons_of_mem q hp)) acc

/-- With every factor equal to `c` and some adjustment matching the row's
reason code, the folded accumulator is the original denial times `c`
(the mask always multiplies the ORIGINAL denial column). -/
theorem simGlosaSim_const_aux {c : ℚ} {r : ARow} :
    ∀ aj : List (String × ℚ), (∀ p ∈ aj, p.2 = c) →
    ∀ acc : Option ℚ, (∃ p ∈ aj, p.1 = r.motivo_glosa_codigo) →
    aj.foldl
        (fun acc p => if r.motivo_glosa_codigo = p.1
          then r.valor_glosa.map (fun g => g * p.2) else acc) acc
      = r.valor_glosa.map (fun g => g * c) := by
  intro aj
  induction aj with
  | nil =>
    intro _ acc h0
    obtain ⟨p, hp, _⟩ := h0
    cases hp
  | cons q t ih =>
    intro hc acc h0
    rw [List.foldl_cons]
    by_cases hq : r.motivo_glosa_codigo = q.1
    · rw [if_pos hq]
      by_cases ht : ∃ p ∈ t, p.1 = r.motivo_glosa_codigo
      · exact ih (fun p hp => hc p (List.mem_cons_of_mem q hp)) _ ht
      · rw [simGlosaSim_foldl_nomatch t
          (fun p hp heq => ht ⟨p, hp, heq.symm⟩),
          hc q (List.mem_cons_self q t)]
    · rw [if_neg hq]
      obtain ⟨p, hp, hpe⟩ := h0
      rcases List.mem_cons.mp hp with h1 | h1
      · exact absurd (h1 ▸ hpe).symm hq
      · exact ih (fun p hp => hc p (List.mem_cons_of_mem q hp)) acc ⟨p, h1, hpe⟩

/-- Folding `simGlosaSim` with a constant factor `c` covering the row. -/
theorem simGlosaSim_const {c : ℚ} {r : ARow} (aj : List (String × ℚ))
    (hc : ∀ p ∈ aj, p.2 = c)
    (hcov : ∃ p ∈ aj, p.1 = r.motivo_glosa_codigo) :
    simGlosaSim aj r = r.valor_glosa.map (fun g => g * c) :=
  simGlosaSim_const_aux aj hc r.valor_glosa hcov

/-- C7 (amended): with factor 0 for every reason code present, every row
with a non-missing denial value gets simulated denial 0 and simulated paid
value equal to the presented value clamped at zero; with factor 1 and a
non-negative denial value, the simulated denial equals the original denial,
and the simulated paid value is `max(presented - denial, 0)` — which equals
the original paid value exactly when the row satisfies
`paid = presented - denial ≥ 0`.  (The transform is a pure function of the
input table in this model; the input list is not modified.) -/
theorem simulador_factor_extremes :
    (∀ (df : List ARow) (aj : List (String × ℚ)),
        (∀ p ∈ aj, p.2 = 0) →
        (∀ r ∈ df, ∃ p ∈ aj, p.1 = r.motivo_glosa_codigo) →
        ∀ s ∈ simulador_glosa df aj, (s.base.valor_glosa).isSome →
          s.valor_glosa_sim = some 0
          ∧ s.valor_pago_sim
              = (s.base.valor_apresentado).map (fun v => max v 0))
    ∧ (∀ (df : List ARow) (aj : List (String × ℚ)),
        (∀ p ∈ aj, p.2 = 1) →
        (∀ r ∈ df, ∃ p ∈ aj, p.1 = r.motivo_glosa_codigo) →
        ∀ s ∈ simulador_glosa df aj, ∀ g : ℚ,
          s.base.valor_glosa = some g → 0 ≤ g →
          s.valor_glosa_sim = some g
          ∧ ∀ va : ℚ, s.base.valor_apresentado = some va →
              s.valor_pago_sim = some (max (va - g) 0)
              ∧ (s.base.valor_pago = some (va - g) → 0 ≤ va - g →
                  s.valor_pago_sim = s.base.valor_pago)) := by
  constructor
  · intro df aj hc hcov s hs hg
    simp only [simulador_glosa] at hs
    split at hs
    · cases hs
    · obtain ⟨r, hrr, rfl⟩ := List.mem_map.mp hs
      dsimp only at hg ⊢
      obtain ⟨g, hgv⟩ := Option.isSome_iff_exists.mp hg
      rw [simGlosaSim_const aj hc (hcov r hrr), hgv]
      constructor
      · simp
      · cases hva : r.valor_apresentado with
        | none => simp [osub]
        | some a => simp [osub]
  · intro df aj hc hcov s hs g hgv hge
    simp only [simulador_glosa] at hs
    split at hs
    · cases hs
    · obtain ⟨r, hrr, rfl⟩ := List.mem_map.mp hs
      dsimp only at hgv ⊢
      rw [simGlosaSim_const aj hc (hcov r hrr), hgv]
      have hmax : max (g * 1) 0 = g := by
        rw [mul_one]
        exact max_eq_left hge
      constructor
      · simp [hmax, hge]
      · intro va hva
        rw [hva]
        constructor
        · simp [osub, hmax, hge]
        · intro hvp hge2
          rw [hvp]
          simp [osub, hmax, hge, max_eq_left hge2]

/-- A reconciled row with presented 10, paid 5, denial 2, reason `"X"`
(note `paid ≠ presented - denial`). -/
def aC7 : ARow := {
  codigo_procedimento := "c", descricao_procedimento := "d",
  competencia := "", motivo_glosa_codigo := "X",
  motivo_glosa_descricao := "", valor_apresentado := some 10,
  valor_pago := some 5, valor_glosa := some 2 }

/-- The simulator output row for `[aC7]` under factor 1 on `"X"`. -/
def sC7 : SimRow := {
  base := aC7, valor_glosa_sim := some 2, valor_pago_sim := some 8,
  glosa_pct_sim := some (1/5) }

/-- Concrete evaluation of the simulator with factor 1 on `"X"`. -/
theorem simulador_aC7 :
    simulador_glosa [aC7] [("X", 1)] = [sC7] := by
  simp +decide [simulador_glosa, simGlosaSim, osub, aC7, sC7,
    SimRow.mk.injEq, ARow.mk.injEq]
  norm_num [max_def]

/-- C7 counterexample: with factor 1 on every reason code, the simulated
paid value is recomputed as `presented - denial` (clamped), NOT restored to
the original paid value: on a row with presented 10, paid 5, denial 2 the
simulator reports simulated paid 8 while the original paid value is 5. -/
theorem simulador_factor1_cex :
    ¬ (∀ s ∈ simulador_glosa [aC7] [("X", 1)],
        s.valor_glosa_sim = s.base.valor_glosa
          ∧ s.valor_pago_sim = s.base.valor_pago) := by
  intro h
  have h2 := (h sC7 (by rw [simulador_aC7]; exact List.mem_singleton_self sC7)).2
  norm_num [sC7, aC7] at h2

/-- The simulator output row for `[aC7]` under factor 0 on `"X"`. -/
def sC7z : SimRow := {
  base := aC7, valor_glosa_sim := some 0, valor_pago_sim := some 10,
  glosa_pct_sim := some 0 }

/-- Concrete evaluation of the simulator with factor 0 on `"X"`. -/
theorem simulador_aC7z :
    simulador_glosa [aC7] [("X", 0)] = [sC7z] := by
  simp +decide [simulador_glosa, simGlosaSim, osub, aC7, sC7z,
    SimRow.mk.injEq, ARow.mk.injEq, max_def]

/-- Witness for `simulador_factor_extremes` at the concrete table `[aC7]`
with factor 0 on `"X"`. -/
theorem simulador_factor_extremes_witness :
    sC7z.valor_glosa_sim = some 0
      ∧ sC7z.valor_pago_sim
          = (sC7z.base.valor_apresentado).map (fun v => max v 0) :=
  simulador_factor_extremes.1 [aC7] [("X", 0)] (by decide) (by decide)
    sC7z (by rw [simulador_aC7z]; exact List.mem_singleton_self sC7z)
    (by decide)

end Tiss
